import Mathlib

/-!
# SparkFun TMF8801 Arduino library

A shallow embedding of the register transport (`SparkFun_TMF8801_IO.cpp`) and of the
device controller (`SparkFun_TMF8801_Arduino_Library.cpp`), followed by theorems about
the bring-up handshake, the calibration read-back, the measurement snapshot and the
GPIO setters.

Conventions of the embedding.

* A `byte` is a `Nat` below 256; every place where C++ narrows an `int` to a `byte`
  carries an explicit `% 256`.
* The two-wire bus and the timing primitives (`delay`, `millis`) do not belong to the
  library. They are a parameter `Sim σ`: a deterministic simulated environment with
  state `σ`. A `World σ` pairs the environment state with the trace of every bus
  transaction and timing call issued so far, oldest first.
* Member functions take the object and the world and return the updated ones.
* The two unbounded loops of `resetDevice` and the clock-bounded loop of
  `getCalibrationData` take a fuel argument and return `none` when it runs out.
-/

/-! ## Constants (`SparkFun_TMF8801_Constants.h`) -/

@[simp] def CPU_READY_TIMEOUT : Nat := 200
@[simp] def APPLICATION_READY_TIMEOUT : Nat := 200
@[simp] def CHIP_ID_NUMBER : Nat := 0x07
@[simp] def APPLICATION : Nat := 0xc0
@[simp] def COMMAND_CALIBRATION : Nat := 0x0b
@[simp] def COMMAND_FACTORY_CALIBRATION : Nat := 0x0a
@[simp] def COMMAND_MEASURE : Nat := 0x02
@[simp] def COMMAND_RESULT : Nat := 0x55
@[simp] def INTERRUPT_MASK : Nat := 0x01
@[simp] def CONTENT_CALIBRATION : Nat := 0x0a

@[simp] def ALGO_STATE : List Nat :=
  [0xB1, 0xA9, 0x02, 0x00, 0x00, 0x00, 0x00, 0x00, 0x00, 0x00, 0x00]

@[simp] def ERROR_NONE : Nat := 0x0
@[simp] def ERROR_I2C_COMM_ERROR : Nat := 0x01
@[simp] def ERROR_CPU_RESET_TIMEOUT : Nat := 0x02
@[simp] def ERROR_WRONG_CHIP_ID : Nat := 0x03
@[simp] def ERROR_CPU_LOAD_APPLICATION_ERROR : Nat := 0x04
@[simp] def ERROR_FACTORY_CALIBRATION_ERROR : Nat := 0x05

@[simp] def MODE_HIGH_OUTPUT : Nat := 0x05

@[simp] def CMD_DATA_5 : Nat := 0x02
@[simp] def CMD_DATA_0 : Nat := 0x07

@[simp] def CPU_RESET : Nat := 0x07
@[simp] def CPU_READY : Nat := 0x06

@[simp] def REGISTER_APPID : Nat := 0x00
@[simp] def REGISTER_APPREQID : Nat := 0x02
@[simp] def REGISTER_CMD_DATA7 : Nat := 0x08
@[simp] def REGISTER_CMD_DATA5 : Nat := 0x0A
@[simp] def REGISTER_CMD_DATA0 : Nat := 0x0F
@[simp] def REGISTER_COMMAND : Nat := 0x10
@[simp] def REGISTER_REGISTER_CONTENTS : Nat := 0x1E
@[simp] def REGISTER_RESULT_NUMBER : Nat := 0x20
@[simp] def REGISTER_FACTORY_CALIB_0 : Nat := 0x20
@[simp] def REGISTER_STATE_DATA_WR_0 : Nat := 0x2E
@[simp] def REGISTER_ENABLE_REG : Nat := 0xE0
@[simp] def REGISTER_INT_STATUS : Nat := 0xE1
@[simp] def REGISTER_INT_ENAB : Nat := 0xE2
@[simp] def REGISTER_ID : Nat := 0xE3

@[simp] def CALIBRATION_DATA_LENGTH : Nat := 14

/-! ## The simulated environment -/

/-- One call that crosses the bus boundary or the timing boundary. -/
inductive Event where
  | probe (address status : Nat)
  | write (address reg : Nat) (bytes : List Nat)
  | read (address reg count : Nat) (got : List Nat)
  | delay (ms : Nat)
  | millis (t : Nat)
  deriving DecidableEq, Repr

/-- The environment the library runs against, with state `σ`.
`probe a` is an empty transmission to address `a` and yields the status code of
`endTransmission` (0 means acknowledged); `write a r bs` is one transmission of the
register address `r` followed by the bytes `bs`; `read a r n` transmits the register
address `r`, requests `n` bytes and yields the bytes that became available;
`delay ms` and `millis` are the Arduino timing primitives. -/
structure Sim (σ : Type) where
  probe : Nat → σ → Nat × σ
  write : Nat → Nat → List Nat → σ → σ
  read : Nat → Nat → Nat → σ → List Nat × σ
  delay : Nat → σ → σ
  millis : σ → Nat × σ

/-- Environment state together with the trace of calls made so far, oldest first. -/
structure World (σ : Type) where
  dev : σ
  trace : List Event

section Primitives

variable {σ : Type}

/-- The call `delay(ms)`. -/
def delay (sim : Sim σ) (ms : Nat) (w : World σ) : World σ :=
  { dev := sim.delay ms w.dev, trace := w.trace ++ [Event.delay ms] }

/-- The call `millis()`; the result is a `uint32_t`. -/
def millis (sim : Sim σ) (w : World σ) : Nat × World σ :=
  ((sim.millis w.dev).1 % 2 ^ 32,
   { dev := (sim.millis w.dev).2,
     trace := w.trace ++ [Event.millis ((sim.millis w.dev).1 % 2 ^ 32)] })

/-- Two's-complement width used for the `int` operand of `~`. The results below are
narrowed to a byte, so any width of at least 8 bits gives the same values. -/
def intBits : Nat := 16

/-- The C++ expression `~x` for `0 ≤ x < 2 ^ intBits`, as a bit pattern. -/
def bitNot (x : Nat) : Nat := 2 ^ intBits - 1 - x

/-- The value a non-negative quantity `x` takes when it is converted to a signed `int`
of `bits` bits (two's complement): `x` itself when it is below `2 ^ (bits - 1)`. -/
def intOfBits (bits x : Nat) : Int :=
  if x % 2 ^ bits < 2 ^ (bits - 1) then ((x % 2 ^ bits : Nat) : Int)
  else ((x % 2 ^ bits : Nat) : Int) - ((2 ^ bits : Nat) : Int)

end Primitives

/-! ## Register transport (`SparkFun_TMF8801_IO.cpp`) -/

/-- The transport object: the bus address it is bound to. The bus itself is the
`Sim` parameter of every operation. -/
structure TMF8801_IO where
  _address : Nat
  deriving DecidableEq, Repr

namespace TMF8801_IO

variable {σ : Type}

/-- Method `TMF8801_IO::isConnected`. -/
def isConnected (sim : Sim σ) (io : TMF8801_IO) (w : World σ) : Bool × World σ :=
  let status := (sim.probe io._address w.dev).1
  let w1 : World σ :=
    { dev := (sim.probe io._address w.dev).2,
      trace := w.trace ++ [Event.probe io._address status] }
  if status ≠ 0 then (false, w1) else (true, w1)

/-- Method `TMF8801_IO::begin`. -/
def begin (sim : Sim σ) (_io : TMF8801_IO) (address : Nat) (w : World σ) :
    Bool × TMF8801_IO × World σ :=
  let io1 : TMF8801_IO := { _address := address }
  ((isConnected sim io1 w).1, io1, (isConnected sim io1 w).2)

/-- Method `TMF8801_IO::writeMultipleBytes`: the first `packetLength` bytes of `buffer`. -/
def writeMultipleBytes (sim : Sim σ) (io : TMF8801_IO) (registerAddress : Nat)
    (buffer : List Nat) (packetLength : Nat) (w : World σ) : World σ :=
  { dev := sim.write io._address registerAddress (buffer.take packetLength) w.dev,
    trace := w.trace ++ [Event.write io._address registerAddress (buffer.take packetLength)] }

/-- Method `TMF8801_IO::readMultipleBytes`: entry `i` of the buffer is overwritten for every
`i` below both `packetLength` and the number of bytes that became available. -/
def readMultipleBytes (sim : Sim σ) (io : TMF8801_IO) (registerAddress : Nat)
    (buffer : List Nat) (packetLength : Nat) (w : World σ) : List Nat × World σ :=
  let got := (sim.read io._address registerAddress packetLength w.dev).1
  let received := (got.take packetLength).map (fun b => b % 256)
  (received ++ buffer.drop received.length,
   { dev := (sim.read io._address registerAddress packetLength w.dev).2,
     trace := w.trace ++ [Event.read io._address registerAddress packetLength got] })

/-- Method `TMF8801_IO::readSingleByte`. When no byte is available `read()` yields `-1`,
which narrows to `0xFF`. -/
def readSingleByte (sim : Sim σ) (io : TMF8801_IO) (registerAddress : Nat) (w : World σ) :
    Nat × World σ :=
  let got := (sim.read io._address registerAddress 1 w.dev).1
  (match got.head? with
   | some b => b % 256
   | none => 0xFF,
   { dev := (sim.read io._address registerAddress 1 w.dev).2,
     trace := w.trace ++ [Event.read io._address registerAddress 1 got] })

/-- Method `TMF8801_IO::writeSingleByte`. -/
def writeSingleByte (sim : Sim σ) (io : TMF8801_IO) (registerAddress : Nat) (value : Nat)
    (w : World σ) : World σ :=
  { dev := sim.write io._address registerAddress [value] w.dev,
    trace := w.trace ++ [Event.write io._address registerAddress [value]] }

/-- Method `TMF8801_IO::setRegisterBit`. -/
def setRegisterBit (sim : Sim σ) (io : TMF8801_IO) (registerAddress : Nat)
    (bitPosition : Nat) (w : World σ) : World σ :=
  let value := (readSingleByte sim io registerAddress w).1
  let value1 := (value ||| (1 <<< bitPosition)) % 256
  writeSingleByte sim io registerAddress value1 (readSingleByte sim io registerAddress w).2

/-- Method `TMF8801_IO::clearRegisterBit`. -/
def clearRegisterBit (sim : Sim σ) (io : TMF8801_IO) (registerAddress : Nat)
    (bitPosition : Nat) (w : World σ) : World σ :=
  let value := (readSingleByte sim io registerAddress w).1
  let value1 := (value &&& bitNot (1 <<< bitPosition)) % 256
  writeSingleByte sim io registerAddress value1 (readSingleByte sim io registerAddress w).2

/-- Method `TMF8801_IO::isBitSet`. -/
def isBitSet (sim : Sim σ) (io : TMF8801_IO) (registerAddress : Nat)
    (bitPosition : Nat) (w : World σ) : Bool × World σ :=
  let value := (readSingleByte sim io registerAddress w).1
  let mask := (1 <<< bitPosition) % 256
  if value &&& mask ≠ 0 then (true, (readSingleByte sim io registerAddress w).2)
  else (false, (readSingleByte sim io registerAddress w).2)

end TMF8801_IO

/-! ## Device controller (`SparkFun_TMF8801_Arduino_Library.cpp`) -/

/-- Modelled from the spec: the data members of class `TMF8801`. They are declared in
`SparkFun_TMF8801_Arduino_Library.h`, which is not among the source files; the spec's
data model lists them: a 14-byte `calibrationData`, an 8-byte `commandDataValues`, the
byte `lastError`, and the snapshot `resultNumber`, `resultInfo` (bytes) and
`distancePeak` (the assembled two-byte peak distance, held without loss). The two
array sizes are what `sizeof(calibrationData)` and `sizeof(commandDataValues)` stand
for below. -/
structure TMF8801 where
  tmf8801_io : TMF8801_IO
  calibrationData : List Nat
  commandDataValues : List Nat
  lastError : Nat
  resultNumber : Nat
  resultInfo : Nat
  distancePeak : Nat
  deriving DecidableEq, Repr

namespace TMF8801

open TMF8801_IO

variable {σ : Type}

/-- The `do ... while (counter < CPU_READY_TIMEOUT)` loop of `TMF8801::cpuReady`,
entered with the given value of `counter`. The first argument bounds the number of
passes; `cpuReady` supplies as many as the loop can make. -/
def cpuReadyLoop (sim : Sim σ) (io : TMF8801_IO) : Nat → Nat → World σ → Bool × World σ
  | 0, _, w => (false, w)
  | n + 1, counter, w =>
    if (isBitSet sim io REGISTER_ENABLE_REG CPU_READY w).1 = false then
      if counter + 1 < CPU_READY_TIMEOUT then
        cpuReadyLoop sim io n (counter + 1)
          (delay sim 100 (isBitSet sim io REGISTER_ENABLE_REG CPU_READY w).2)
      else (false, delay sim 100 (isBitSet sim io REGISTER_ENABLE_REG CPU_READY w).2)
    else (true, (isBitSet sim io REGISTER_ENABLE_REG CPU_READY w).2)

/-- Method `TMF8801::cpuReady`. -/
def cpuReady (sim : Sim σ) (self : TMF8801) (w : World σ) : Bool × World σ :=
  cpuReadyLoop sim self.tmf8801_io CPU_READY_TIMEOUT 0 w

/-- The `do ... while (counter < APPLICATION_READY_TIMEOUT)` loop of
`TMF8801::applicationReady`, entered with the given value of `counter`. -/
def applicationReadyLoop (sim : Sim σ) (io : TMF8801_IO) :
    Nat → Nat → World σ → Bool × World σ
  | 0, _, w => (false, w)
  | n + 1, counter, w =>
    if decide ((readSingleByte sim io REGISTER_APPID w).1 = APPLICATION) = false then
      if counter + 1 < APPLICATION_READY_TIMEOUT then
        applicationReadyLoop sim io n (counter + 1)
          (delay sim 100 (readSingleByte sim io REGISTER_APPID w).2)
      else (false, delay sim 100 (readSingleByte sim io REGISTER_APPID w).2)
    else (true, (readSingleByte sim io REGISTER_APPID w).2)

/-- Method `TMF8801::applicationReady`. -/
def applicationReady (sim : Sim σ) (self : TMF8801) (w : World σ) : Bool × World σ :=
  applicationReadyLoop sim self.tmf8801_io APPLICATION_READY_TIMEOUT 0 w

/-- Method `TMF8801::updateCommandData8`; `sizeof(commandDataValues)` is 8. -/
def updateCommandData8 (sim : Sim σ) (self : TMF8801) (w : World σ) : World σ :=
  writeMultipleBytes sim self.tmf8801_io REGISTER_CMD_DATA7 self.commandDataValues 8 w

/-- The five writes shared by `begin` (lines 61-69) and `resetDevice` (lines 259-267):
calibration command, calibration data (`sizeof(calibrationData)` is 14), algorithm
state (`sizeof(ALGO_STATE)` is 11), command data, measure command. -/
def loadAndStart (sim : Sim σ) (self : TMF8801) (w : World σ) : World σ :=
  let w1 := writeSingleByte sim self.tmf8801_io REGISTER_COMMAND COMMAND_CALIBRATION w
  let w2 := writeMultipleBytes sim self.tmf8801_io REGISTER_FACTORY_CALIB_0
    self.calibrationData 14 w1
  let w3 := writeMultipleBytes sim self.tmf8801_io REGISTER_STATE_DATA_WR_0 ALGO_STATE 11 w2
  let w4 := updateCommandData8 sim self w3
  writeSingleByte sim self.tmf8801_io REGISTER_COMMAND COMMAND_MEASURE w4

/-- Method `TMF8801::begin`. -/
def begin (sim : Sim σ) (self : TMF8801) (address : Nat) (w : World σ) :
    Bool × TMF8801 × World σ :=
  let r0 := TMF8801_IO.begin sim self.tmf8801_io address w
  let self1 : TMF8801 := { self with tmf8801_io := r0.2.1 }
  if r0.1 = false then
    (false, { self1 with lastError := ERROR_I2C_COMM_ERROR }, r0.2.2)
  else
    let w1 := setRegisterBit sim self1.tmf8801_io REGISTER_ENABLE_REG CPU_RESET r0.2.2
    let r2 := cpuReady sim self1 w1
    if r2.1 = false then
      (false, { self1 with lastError := ERROR_CPU_RESET_TIMEOUT }, r2.2)
    else
      let r3 := readSingleByte sim self1.tmf8801_io REGISTER_ID r2.2
      if r3.1 ≠ CHIP_ID_NUMBER then
        (false, { self1 with lastError := ERROR_WRONG_CHIP_ID }, r3.2)
      else
        let w4 := writeSingleByte sim self1.tmf8801_io REGISTER_APPREQID APPLICATION r3.2
        let r5 := applicationReady sim self1 w4
        if r5.1 = false then
          (false, { self1 with lastError := ERROR_CPU_LOAD_APPLICATION_ERROR }, r5.2)
        else
          let w6 := loadAndStart sim self1 r5.2
          let w7 := delay sim 10 w6
          (true, { self1 with lastError := ERROR_NONE }, w7)

/-- Method `TMF8801::getLastError`. -/
def getLastError (self : TMF8801) : Nat := self.lastError

/-- The loop `do { ready = cpuReady(); } while (!ready);` of `resetDevice`. It has no
ceiling in the source; `none` means the fuel ran out. -/
def untilCpuReady (sim : Sim σ) (self : TMF8801) : Nat → World σ → Option (World σ)
  | 0, _ => none
  | fuel + 1, w =>
    if (cpuReady sim self w).1 = true then some (cpuReady sim self w).2
    else untilCpuReady sim self fuel (cpuReady sim self w).2

/-- The loop `do { ready = applicationReady(); } while (!ready);` of `resetDevice`. -/
def untilApplicationReady (sim : Sim σ) (self : TMF8801) :
    Nat → World σ → Option (World σ)
  | 0, _ => none
  | fuel + 1, w =>
    if (applicationReady sim self w).1 = true then some (applicationReady sim self w).2
    else untilApplicationReady sim self fuel (applicationReady sim self w).2

/-- Method `TMF8801::resetDevice`. Each of its two unbounded loops gets `fuel` rounds. -/
def resetDevice (sim : Sim σ) (fuel : Nat) (self : TMF8801) (w : World σ) :
    Option (TMF8801 × World σ) :=
  let w1 := setRegisterBit sim self.tmf8801_io REGISTER_ENABLE_REG CPU_RESET w
  match untilCpuReady sim self fuel w1 with
  | none => none
  | some w2 =>
    let w3 := writeSingleByte sim self.tmf8801_io REGISTER_APPREQID APPLICATION w2
    match untilApplicationReady sim self fuel w3 with
    | none => none
    | some w4 =>
      let w5 := loadAndStart sim self w4
      some (self, delay sim 50 w5)

/-- Method `TMF8801::setCalibrationData`: `memcpy` of `CALIBRATION_DATA_LENGTH` bytes, then
`resetDevice`. -/
def setCalibrationData (sim : Sim σ) (fuel : Nat) (self : TMF8801)
    (newCalibrationData : List Nat) (w : World σ) : Option (TMF8801 × World σ) :=
  let self1 : TMF8801 :=
    { self with
      calibrationData :=
        newCalibrationData.take CALIBRATION_DATA_LENGTH ++
          self.calibrationData.drop CALIBRATION_DATA_LENGTH }
  resetDevice sim fuel self1 w

/-- The `do ... while (millis() - calibrationStart < 30000)` loop of
`getCalibrationData`. The difference is taken in `uint32_t`. `none` means the fuel ran
out before the loop ended. -/
def getCalibrationLoop (sim : Sim σ) (io : TMF8801_IO) (calibrationStart : Nat) :
    Nat → List Nat → World σ → Option (Bool × List Nat × World σ)
  | 0, _, _ => none
  | fuel + 1, calibrationResults, w =>
    let w1 := writeSingleByte sim io REGISTER_COMMAND COMMAND_FACTORY_CALIBRATION w
    let w2 := delay sim 10 w1
    let r3 := readSingleByte sim io REGISTER_REGISTER_CONTENTS w2
    if r3.1 = CONTENT_CALIBRATION then
      let w4 := delay sim 10 r3.2
      let r5 := readMultipleBytes sim io REGISTER_FACTORY_CALIB_0 calibrationResults
        CALIBRATION_DATA_LENGTH w4
      some (true, r5.1, r5.2)
    else
      let w4 := delay sim 50 r3.2
      let r5 := millis sim w4
      if (r5.1 + 2 ^ 32 - calibrationStart) % 2 ^ 32 < 30000 then
        getCalibrationLoop sim io calibrationStart fuel calibrationResults r5.2
      else some (false, calibrationResults, r5.2)

/-- Method `TMF8801::getCalibrationData`. The result carries the return value, the object,
the caller's buffer and the world. -/
def getCalibrationData (sim : Sim σ) (fuel : Nat) (self : TMF8801)
    (calibrationResults : List Nat) (w : World σ) :
    Option (Bool × TMF8801 × List Nat × World σ) :=
  let w1 := writeSingleByte sim self.tmf8801_io REGISTER_COMMAND 0xff w
  let w2 := delay sim 50 w1
  let self1 : TMF8801 := { self with lastError := ERROR_NONE }
  let r3 := millis sim w2
  match getCalibrationLoop sim self.tmf8801_io r3.1 fuel calibrationResults r3.2 with
  | none => none
  | some (true, buf, w4) => some (true, self1, buf, w4)
  | some (false, buf, w4) =>
    some (false, { self1 with lastError := ERROR_FACTORY_CALIBRATION_ERROR }, buf, w4)

/-- Method `TMF8801::getMeasurementReliability`. -/
def getMeasurementReliability (self : TMF8801) : Nat :=
  (self.resultInfo &&& 0x3f) % 256

/-- Method `TMF8801::getMeasurementStatus`. -/
def getMeasurementStatus (self : TMF8801) : Nat :=
  (self.resultInfo >>> 6) % 256

/-- Method `TMF8801::getMeasurementNumber`. -/
def getMeasurementNumber (self : TMF8801) : Nat := self.resultNumber

/-- Method `TMF8801::doMeasurement`. `buffer` is the content of the local array before the
read (indeterminate in the source). -/
def doMeasurement (sim : Sim σ) (self : TMF8801) (buffer : List Nat) (w : World σ) :
    TMF8801 × World σ :=
  let r := readMultipleBytes sim self.tmf8801_io REGISTER_RESULT_NUMBER buffer 4 w
  let self1 : TMF8801 := { self with resultNumber := r.1.getD 0 0 }
  let self2 : TMF8801 := { self1 with resultInfo := r.1.getD 1 0 }
  let self3 : TMF8801 := { self2 with distancePeak := r.1.getD 3 0 }
  let self4 : TMF8801 := { self3 with distancePeak := self3.distancePeak <<< 8 }
  ({ self4 with distancePeak := self4.distancePeak + r.1.getD 2 0 }, r.2)

/-- Method `TMF8801::clearInterruptFlag`. -/
def clearInterruptFlag (sim : Sim σ) (self : TMF8801) (w : World σ) : World σ :=
  let r := readSingleByte sim self.tmf8801_io REGISTER_INT_STATUS w
  writeSingleByte sim self.tmf8801_io REGISTER_INT_STATUS ((r.1 ||| INTERRUPT_MASK) % 256) r.2

/-- Method `TMF8801::getDistance`. The return type is `int`; `intWidth` is the number of
bits of `int` on the platform (16 on AVR boards, 32 on ARM boards), and the stored peak
distance is converted to it on return. -/
def getDistance (sim : Sim σ) (intWidth : Nat) (self : TMF8801) (buffer : List Nat)
    (w : World σ) : Int × TMF8801 × World σ :=
  let w1 := clearInterruptFlag sim self w
  let r := doMeasurement sim self buffer w1
  (intOfBits intWidth r.1.distancePeak, r.1, r.2)

/-- Method `TMF8801::measurementEnabled`. -/
def measurementEnabled (self : TMF8801) : Bool :=
  decide ((self.resultInfo >>> 6) % 256 = 0)

/-- Method `TMF8801::setGPIO0Mode`. -/
def setGPIO0Mode (sim : Sim σ) (self : TMF8801) (gpioMode : Nat) (w : World σ) :
    TMF8801 × World σ :=
  if gpioMode > MODE_HIGH_OUTPUT then (self, w)
  else
    let r := readSingleByte sim self.tmf8801_io REGISTER_CMD_DATA0 w
    let currentRegisterValue := ((r.1 &&& 0xf0) + gpioMode) % 256
    let self1 : TMF8801 :=
      { self with
        commandDataValues := self.commandDataValues.set CMD_DATA_5 currentRegisterValue }
    (self1,
     writeMultipleBytes sim self.tmf8801_io REGISTER_CMD_DATA0
       [currentRegisterValue, 0x0f] 2 r.2)

/-- Method `TMF8801::getGPIO0Mode`. -/
def getGPIO0Mode (sim : Sim σ) (self : TMF8801) (w : World σ) : Nat × World σ :=
  let r := readSingleByte sim self.tmf8801_io REGISTER_CMD_DATA0 w
  ((r.1 &&& 0x0f) % 256, r.2)

/-- Method `TMF8801::setGPIO1Mode`. -/
def setGPIO1Mode (sim : Sim σ) (self : TMF8801) (gpioMode : Nat) (w : World σ) :
    TMF8801 × World σ :=
  if gpioMode > MODE_HIGH_OUTPUT then (self, w)
  else
    let r := readSingleByte sim self.tmf8801_io REGISTER_CMD_DATA0 w
    let currentRegisterValue := ((r.1 &&& 0x0f) + (gpioMode <<< 4)) % 256
    let self1 : TMF8801 :=
      { self with
        commandDataValues := self.commandDataValues.set CMD_DATA_5 currentRegisterValue }
    (self1,
     writeMultipleBytes sim self.tmf8801_io REGISTER_CMD_DATA0
       [currentRegisterValue, 0x0f] 2 r.2)

/-- Method `TMF8801::getGPIO1Mode`. -/
def getGPIO1Mode (sim : Sim σ) (self : TMF8801) (w : World σ) : Nat × World σ :=
  let r := readSingleByte sim self.tmf8801_io REGISTER_CMD_DATA0 w
  ((r.1 >>> 4) % 256, r.2)

end TMF8801

/-! ## Notions used to state the properties -/

section Notions

variable {σ : Type}

open TMF8801_IO

/-- World reached after `k` polls of register `reg` that each were followed by
`delay(100)`: the world in which poll number `k` (counted from 0) is made when every
earlier poll was unsuccessful. -/
def pollWorld (sim : Sim σ) (io : TMF8801_IO) (reg : Nat) : Nat → World σ → World σ
  | 0, w => w
  | k + 1, w => delay sim 100 (readSingleByte sim io reg (pollWorld sim io reg k w)).2

/-- Byte obtained by poll number `k` (counted from 0) of register `reg`. -/
def pollValue (sim : Sim σ) (io : TMF8801_IO) (reg : Nat) (k : Nat) (w : World σ) : Nat :=
  (readSingleByte sim io reg (pollWorld sim io reg k w)).1

/-- World right after poll number `k` (counted from 0) of register `reg`. -/
def afterPoll (sim : Sim σ) (io : TMF8801_IO) (reg : Nat) (k : Nat) (w : World σ) : World σ :=
  (readSingleByte sim io reg (pollWorld sim io reg k w)).2

/-- An event is an addressed read of register `reg`. -/
def Event.isReadOf (reg : Nat) : Event → Bool
  | Event.read _ r _ _ => decide (r = reg)
  | _ => false

/-- A device that stores register writes: a one-byte read of a register that was just
written with one byte yields that byte. -/
def StoresWrites (sim : Sim σ) : Prop :=
  ∀ (a r v : Nat) (d : σ), v < 256 → (sim.read a r 1 (sim.write a r [v] d)).1 = [v]

/-- The events are `polls` reads of register `reg` and `delays` calls of `delay(100)`,
and nothing else. -/
def PollTrace (reg polls delays : Nat) (evs : List Event) : Prop :=
  (∀ e ∈ evs, e.isReadOf reg = true ∨ e = Event.delay 100) ∧
  evs.countP (Event.isReadOf reg) = polls ∧ evs.count (Event.delay 100) = delays

/-- The object as `begin` leaves its transport member: bound to `address`. -/
def beginSelf (self : TMF8801) (address : Nat) : TMF8801 :=
  { self with tmf8801_io := { _address := address } }

/-- World in which `begin` starts polling the CPU-ready bit: after the probe and the
CPU reset (line 34). -/
def beginResetWorld (sim : Sim σ) (address : Nat) (w : World σ) : World σ :=
  setRegisterBit sim { _address := address } REGISTER_ENABLE_REG CPU_RESET
    (isConnected sim { _address := address } w).2

/-- Byte `begin` reads from the chip-ID register (line 44) when the CPU-ready bit was
found set by poll number `m` (counted from 0). -/
def beginChipId (sim : Sim σ) (address : Nat) (m : Nat) (w : World σ) : Nat :=
  (readSingleByte sim { _address := address } REGISTER_ID
    (afterPoll sim { _address := address } REGISTER_ENABLE_REG m
      (beginResetWorld sim address w))).1

/-- World in which `begin` starts polling the application ID when the CPU-ready bit was
found set by poll number `m`: after the chip-ID read and the application request
(line 52). -/
def beginRequestWorld (sim : Sim σ) (address : Nat) (m : Nat) (w : World σ) : World σ :=
  writeSingleByte sim { _address := address } REGISTER_APPREQID APPLICATION
    (readSingleByte sim { _address := address } REGISTER_ID
      (afterPoll sim { _address := address } REGISTER_ENABLE_REG m
        (beginResetWorld sim address w))).2

/-- World after one pass of the read-back loop of `getCalibrationData` that did not
find the content ready (lines 159-168), including the `millis()` call of the loop
condition. -/
def calibPass (sim : Sim σ) (io : TMF8801_IO) (w : World σ) : World σ :=
  (millis sim (delay sim 50
    (readSingleByte sim io REGISTER_REGISTER_CONTENTS
      (delay sim 10
        (writeSingleByte sim io REGISTER_COMMAND COMMAND_FACTORY_CALIBRATION w))).2)).2

/-- World in which pass number `k` (counted from 0) of the read-back loop starts, when
the loop was entered in `w` and no earlier pass ended it. -/
def calibWorld (sim : Sim σ) (io : TMF8801_IO) : Nat → World σ → World σ
  | 0, w => w
  | k + 1, w => calibPass sim io (calibWorld sim io k w)

/-- Content-status byte read by pass number `k` of the read-back loop. -/
def calibStatus (sim : Sim σ) (io : TMF8801_IO) (k : Nat) (w : World σ) : Nat :=
  (readSingleByte sim io REGISTER_REGISTER_CONTENTS
    (delay sim 10
      (writeSingleByte sim io REGISTER_COMMAND COMMAND_FACTORY_CALIBRATION
        (calibWorld sim io k w)))).1

/-- Elapsed time `millis() - calibrationStart` (in `uint32_t`) that the loop condition
sees at the end of pass number `k`. -/
def calibElapsed (sim : Sim σ) (io : TMF8801_IO) (calibrationStart : Nat) (k : Nat)
    (w : World σ) : Nat :=
  ((millis sim (delay sim 50
    (readSingleByte sim io REGISTER_REGISTER_CONTENTS
      (delay sim 10
        (writeSingleByte sim io REGISTER_COMMAND COMMAND_FACTORY_CALIBRATION
          (calibWorld sim io k w)))).2)).1 + 2 ^ 32 - calibrationStart) % 2 ^ 32

/-- Value of `calibrationStart` in `getCalibrationData` (line 154). -/
def calibStart (sim : Sim σ) (io : TMF8801_IO) (w : World σ) : Nat :=
  (millis sim (delay sim 50 (writeSingleByte sim io REGISTER_COMMAND 0xff w))).1

/-- World in which `getCalibrationData` enters its loop. -/
def calibEntry (sim : Sim σ) (io : TMF8801_IO) (w : World σ) : World σ :=
  (millis sim (delay sim 50 (writeSingleByte sim io REGISTER_COMMAND 0xff w))).2

/-- The five bus writes of the calibration-load and measurement-start steps as the
spec lists them, for bus address `a`: `0x0B` to the command register `0x10`, the
calibration data to `0x20`, the algorithm-state blob to `0x2E`, the command data to
`0x08`, `0x02` to the command register `0x10`. -/
def startWrites (a : Nat) (self : TMF8801) : List Event :=
  [Event.write a 0x10 [0x0B],
   Event.write a 0x20 self.calibrationData,
   Event.write a 0x2E [0xB1, 0xA9, 0x02, 0, 0, 0, 0, 0, 0, 0, 0],
   Event.write a 0x08 self.commandDataValues,
   Event.write a 0x10 [0x02]]

/-- World `w2` continues world `w1` and none of the calls made in between is a read
of the chip-ID register. -/
def NoChipIdRead (w1 w2 : World σ) : Prop :=
  ∃ evs, w2.trace = w1.trace ++ evs ∧ ∀ e ∈ evs, e.isReadOf REGISTER_ID = false

end Notions

/-! ## A concrete simulated sensor -/

/-- Fixed description of a simulated sensor: the status its address answers a probe
with, the bytes it reports on its own (`respond t r` is the byte read from register `r`
at time `t` when it is `some`; otherwise the stored byte is read), and the number of
clock milliseconds that pass per millisecond of `delay`. -/
structure Board where
  status : Nat
  respond : Nat → Nat → Option Nat
  tick : Nat

/-- State of a simulated sensor: register file and clock. -/
structure BoardState where
  regs : Nat → Nat
  now : Nat

/-- Store consecutive bytes from register `r` on (the register address increments). -/
def storeBytes (regs : Nat → Nat) : Nat → List Nat → Nat → Nat
  | _, [] => regs
  | r, b :: bs => storeBytes (fun x => if x = r then b else regs x) (r + 1) bs

/-- The byte register `r` shows at the moment of state `s`. -/
def Board.show (b : Board) (s : BoardState) (r : Nat) : Nat :=
  match b.respond s.now r with
  | some v => v
  | none => s.regs r

/-- The simulated environment of a board. -/
def Board.sim (b : Board) : Sim BoardState where
  probe := fun _ s => (b.status, s)
  write := fun _ r bs s => { s with regs := storeBytes s.regs r bs }
  read := fun _ r n s => ((List.range n).map (fun i => b.show s (r + i)), s)
  delay := fun ms s => { s with now := s.now + ms * b.tick }
  millis := fun s => (s.now, s)

/-- A board that only stores: every register reads back what was written. -/
def plainBoard : Board := { status := 0, respond := fun _ _ => none, tick := 1 }

/-- Power-on world of a board: all registers zero, clock zero, empty trace. -/
def World.fresh : World BoardState := { dev := { regs := fun _ => 0, now := 0 }, trace := [] }

/-- An object before `begin`: zeroed buffers of the declared sizes. -/
def TMF8801.blank : TMF8801 :=
  { tmf8801_io := { _address := 0 }
    calibrationData := List.replicate 14 0
    commandDataValues := List.replicate 8 0
    lastError := 0
    resultNumber := 0
    resultInfo := 0
    distancePeak := 0 }

/-- A sensor that answers the probe, reports the CPU-ready bit from 200 ms on, reads
`chip` from the chip-ID register and reports the measurement application from 300 ms
on (the bootloader ID before). -/
def bootBoard (chip : Nat) : Board :=
  { status := 0
    respond := fun t r =>
      if r = 0xE0 then some (if 200 ≤ t then 0x41 else 0x01)
      else if r = 0xE3 then some chip
      else if r = 0x00 then some (if 300 ≤ t then 0xC0 else 0x80)
      else none
    tick := 1 }

/-- A sensor that answers the probe but whose CPU never reports ready; its chip-ID
register reads `0x08`. -/
def deadBoard : Board :=
  { status := 0
    respond := fun _ r =>
      if r = 0xE0 then some 0x01 else if r = 0xE3 then some 0x08 else none
    tick := 1 }

/-- A sensor that only stores and whose clock runs a hundred times fast. With the
power-on register file its content-status register reads 0. -/
def hastyBoard : Board := { status := 0, respond := fun _ _ => none, tick := 100 }

/-- An object bound to address `0x41` with recognisable buffer contents. -/
def TMF8801.sample : TMF8801 :=
  { TMF8801.blank with
    tmf8801_io := { _address := 0x41 }
    calibrationData := [1, 2, 3, 4, 5, 6, 7, 8, 9, 10, 11, 12, 13, 14]
    commandDataValues := [0x03, 0x23, 0x00, 0x00, 0x00, 0x64, 0xFF, 0xFF] }

/-- A board fit for the calibration round trip: in every state it shows the CPU-ready
bit in the enable register, the measurement application in the application-ID register
and "calibration content ready" in the content-status register, and it reports nothing
of its own in the factory-calibration window `0x20..0x2D`, which therefore reads back
what was stored. -/
structure Board.Calibratable (b : Board) : Prop where
  cpu : ∀ s, (b.show s REGISTER_ENABLE_REG % 256).testBit 6 = true
  app : ∀ s, b.show s REGISTER_APPID % 256 = APPLICATION
  content : ∀ s, b.show s REGISTER_REGISTER_CONTENTS % 256 = CONTENT_CALIBRATION
  stores : ∀ t r, 0x20 ≤ r → r ≤ 0x2D → b.respond t r = none

/-- A sensor that is always ready: CPU ready, measurement application loaded,
calibration content ready; every other register only stores. -/
def readyBoard : Board :=
  { status := 0
    respond := fun _ r =>
      if r = 0xE0 then some 0x41 else if r = 0x00 then some 0xC0
      else if r = 0x1E then some 0x0A else none
    tick := 1 }

/-- A register file in which the command-data register `0x0F` holds `0x35` and every
other register holds 0. -/
def World.gpioPreset : World BoardState :=
  { dev := { regs := fun r => if r = 0x0F then 0x35 else 0, now := 0 }, trace := [] }

/-- A register file whose measurement block `0x20..0x23` holds `b0, b1, b2, b3`; every
other register holds 0. -/
def World.measured (b0 b1 b2 b3 : Nat) : World BoardState :=
  { dev := { regs := fun r => if r = 0x20 then b0 else if r = 0x21 then b1
               else if r = 0x22 then b2 else if r = 0x23 then b3 else 0,
             now := 0 },
    trace := [] }

/-! ## Properties -/

section ByteFacts

set_option maxRecDepth 100000 in
theorem byte_status_reliability :
    ∀ B < 256, (B >>> 6) % 256 = B >>> 6 ∧ B >>> 6 ≤ 3 ∧ (B &&& 0x3f) % 256 = B &&& 0x3F ∧
      B &&& 0x3F ≤ 63 ∧ 64 * (B >>> 6) + (B &&& 0x3F) = B := by
  decide

theorem testBit_byte_high (v i : Nat) (hv : v < 256) (hi : 8 ≤ i) : v.testBit i = false := by
  apply Nat.testBit_lt_two_pow
  calc v < 2 ^ 8 := hv
    _ ≤ 2 ^ i := Nat.pow_le_pow_right (by decide) hi

theorem byte_set_bit (v b : Nat) (hv : v < 256) (hb : b ≤ 7) :
    (v ||| (1 <<< b)) % 256 < 256 ∧
      ((v ||| (1 <<< b)) % 256) &&& ((1 <<< b) % 256) ≠ 0 ∧
      ∀ i, ((v ||| (1 <<< b)) % 256).testBit i = (decide (i = b) || v.testBit i) := by
  have hbit : ∀ i, ((v ||| (1 <<< b)) % 256).testBit i = (decide (i = b) || v.testBit i) := by
    intro i
    have h256 : (256 : Nat) = 2 ^ 8 := by norm_num
    rw [h256, Nat.testBit_mod_two_pow, Nat.testBit_or, Nat.one_shiftLeft, Nat.testBit_two_pow]
    by_cases hi : i < 8
    · simp [hi, eq_comm, Bool.or_comm]
    · have := testBit_byte_high v i hv (by omega)
      have hne : ¬ i = b := by omega
      simp [hi, this, hne]
  refine ⟨Nat.mod_lt _ (by decide), ?_, hbit⟩
  intro h0
  have h1 := hbit b
  have h2 : (((v ||| (1 <<< b)) % 256) &&& ((1 <<< b) % 256)).testBit b = true := by
    have h256 : (256 : Nat) = 2 ^ 8 := by norm_num
    rw [Nat.testBit_and, h1]
    rw [h256, Nat.testBit_mod_two_pow, Nat.one_shiftLeft, Nat.testBit_two_pow]
    simp
    omega
  rw [h0] at h2
  simp at h2

theorem byte_clear_bit (v b : Nat) (hv : v < 256) (hb : b ≤ 7) :
    (v &&& bitNot (1 <<< b)) % 256 < 256 ∧
      ((v &&& bitNot (1 <<< b)) % 256) &&& ((1 <<< b) % 256) = 0 ∧
      ∀ i, ((v &&& bitNot (1 <<< b)) % 256).testBit i = (!decide (i = b) && v.testBit i) := by
  have h256 : (256 : Nat) = 2 ^ 8 := by norm_num
  have hlt : 2 ^ b < 2 ^ 16 := Nat.pow_lt_pow_right (by decide) (by omega)
  have hnot : bitNot (1 <<< b) = 2 ^ 16 - (2 ^ b + 1) := by
    simp only [bitNot, intBits, Nat.one_shiftLeft]; omega
  have hbit : ∀ i, ((v &&& bitNot (1 <<< b)) % 256).testBit i =
      (!decide (i = b) && v.testBit i) := by
    intro i
    rw [h256, Nat.testBit_mod_two_pow, Nat.testBit_and, hnot,
      Nat.testBit_two_pow_sub_succ hlt, Nat.testBit_two_pow]
    by_cases hi : i < 8
    · have hi16 : i < 16 := by omega
      simp [hi, hi16, eq_comm, Bool.and_comm]
    · have := testBit_byte_high v i hv (by omega)
      simp [hi, this]
  refine ⟨Nat.mod_lt _ (by decide), ?_, hbit⟩
  apply Nat.eq_of_testBit_eq
  intro i
  rw [Nat.testBit_and, hbit i, h256, Nat.testBit_mod_two_pow, Nat.one_shiftLeft,
    Nat.testBit_two_pow]
  by_cases h : i = b
  · simp [h]
  · have : ¬ b = i := fun e => h e.symm
    simp [h, this]

end ByteFacts

/-- C1: for every byte `B` stored in `resultInfo`, `getMeasurementStatus` is `B >> 6`
and lies in 0..3, `getMeasurementReliability` is `B & 0x3F` and lies in 0..63; both are
functions of the stored snapshot alone, and together they determine `B`. -/
theorem C1_status_and_reliability (self : TMF8801) (B : Nat) (hB : B < 256) :
    TMF8801.getMeasurementStatus { self with resultInfo := B } = B >>> 6 ∧
    TMF8801.getMeasurementStatus { self with resultInfo := B } ≤ 3 ∧
    TMF8801.getMeasurementReliability { self with resultInfo := B } = B &&& 0x3F ∧
    TMF8801.getMeasurementReliability { self with resultInfo := B } ≤ 63 ∧
    64 * TMF8801.getMeasurementStatus { self with resultInfo := B } +
      TMF8801.getMeasurementReliability { self with resultInfo := B } = B := by
  have h := byte_status_reliability B hB
  simp only [TMF8801.getMeasurementStatus, TMF8801.getMeasurementReliability]
  omega

theorem C1_status_and_reliability_witness :
    (0xC5 : Nat) < 256 ∧
    TMF8801.getMeasurementStatus { TMF8801.blank with resultInfo := 0xC5 } = 3 ∧
    TMF8801.getMeasurementReliability { TMF8801.blank with resultInfo := 0xC5 } = 5 := by
  have h := C1_status_and_reliability TMF8801.blank 0xC5 (by decide)
  exact ⟨by decide, h.1, h.2.2.1⟩

section Transport

variable {σ : Type}

open TMF8801_IO

theorem readSingleByte_lt (sim : Sim σ) (io : TMF8801_IO) (r : Nat) (w : World σ) :
    (readSingleByte sim io r w).1 < 256 := by
  unfold readSingleByte
  dsimp only
  split
  · exact Nat.mod_lt _ (by decide)
  · decide

theorem readSingleByte_after_write (sim : Sim σ) (hs : StoresWrites sim) (io : TMF8801_IO)
    (r v : Nat) (hv : v < 256) (w : World σ) :
    (readSingleByte sim io r (writeSingleByte sim io r v w)).1 = v := by
  simp [readSingleByte, writeSingleByte, hs io._address r v w.dev hv, Nat.mod_eq_of_lt hv]

end Transport

/-- C9: `setRegisterBit` and `clearRegisterBit` are read-modify-write: each reads the
register once and writes back one byte, which is the byte read with bit `b` set,
respectively cleared, and every other bit as read (for `b` in 0..7). On a device that
stores register writes, `isBitSet` at the same register and bit is then true,
respectively false. -/
theorem C9_register_bit_operations {σ : Type} (sim : Sim σ) (io : TMF8801_IO) (r b : Nat)
    (w : World σ) (hb : b ≤ 7) :
    (∃ v1, TMF8801_IO.setRegisterBit sim io r b w =
          TMF8801_IO.writeSingleByte sim io r v1 ( TMF8801_IO.readSingleByte sim io r w).2 ∧
        v1 < 256 ∧
        ∀ i, v1.testBit i =
          (decide (i = b) || ( TMF8801_IO.readSingleByte sim io r w).1.testBit i)) ∧
    (∃ v2, TMF8801_IO.clearRegisterBit sim io r b w =
          TMF8801_IO.writeSingleByte sim io r v2 ( TMF8801_IO.readSingleByte sim io r w).2 ∧
        v2 < 256 ∧
        ∀ i, v2.testBit i =
          (!decide (i = b) && ( TMF8801_IO.readSingleByte sim io r w).1.testBit i)) ∧
    (StoresWrites sim →
      ( TMF8801_IO.isBitSet sim io r b ( TMF8801_IO.setRegisterBit sim io r b w)).1 = true ∧
      ( TMF8801_IO.isBitSet sim io r b ( TMF8801_IO.clearRegisterBit sim io r b w)).1 = false) := by
  have hv := readSingleByte_lt sim io r w
  have hset := byte_set_bit _ b hv hb
  have hclr := byte_clear_bit _ b hv hb
  refine ⟨⟨_, rfl, hset.1, hset.2.2⟩, ⟨_, rfl, hclr.1, hclr.2.2⟩, ?_⟩
  intro hs
  constructor
  · unfold TMF8801_IO.isBitSet TMF8801_IO.setRegisterBit
    simp only [readSingleByte_after_write sim hs io r _ hset.1]
    simp [hset.2.1]
  · unfold TMF8801_IO.isBitSet TMF8801_IO.clearRegisterBit
    simp only [readSingleByte_after_write sim hs io r _ hclr.1]
    simp [hclr.2.1]

theorem C9_register_bit_operations_witness :
    (3 : Nat) ≤ 7 ∧ StoresWrites plainBoard.sim ∧
    ( TMF8801_IO.setRegisterBit plainBoard.sim ⟨0x41⟩ 0xE2 3 World.fresh).trace =
      [Event.read 0x41 0xE2 1 [0], Event.write 0x41 0xE2 [8]] ∧
    ( TMF8801_IO.isBitSet plainBoard.sim ⟨0x41⟩ 0xE2 3
      ( TMF8801_IO.setRegisterBit plainBoard.sim ⟨0x41⟩ 0xE2 3 World.fresh)).1 = true ∧
    ( TMF8801_IO.isBitSet plainBoard.sim ⟨0x41⟩ 0xE2 3
      ( TMF8801_IO.clearRegisterBit plainBoard.sim ⟨0x41⟩ 0xE2 3 World.fresh)).1 = false := by
  have hs : StoresWrites plainBoard.sim := by
    intro a r v d _
    simp [Board.sim, plainBoard, Board.show, storeBytes, List.range_succ]
  have h := (C9_register_bit_operations plainBoard.sim ⟨0x41⟩ 0xE2 3 World.fresh
    (by decide)).2.2 hs
  exact ⟨by decide, hs, by decide, h.1, h.2⟩

section Polling

variable {σ : Type}

open TMF8801_IO TMF8801

theorem isBitSet_snd (sim : Sim σ) (io : TMF8801_IO) (r b : Nat) (w : World σ) :
    (isBitSet sim io r b w).2 = (readSingleByte sim io r w).2 := by
  unfold isBitSet
  dsimp only
  split <;> rfl

set_option maxRecDepth 100000 in
theorem byte_ready_mask : ∀ v < 256, decide (v &&& ((1 <<< 6) % 256) ≠ 0) = v.testBit 6 := by
  decide

theorem isBitSet_cpu_ready (sim : Sim σ) (io : TMF8801_IO) (w : World σ) :
    (isBitSet sim io REGISTER_ENABLE_REG CPU_READY w).1 =
      (readSingleByte sim io REGISTER_ENABLE_REG w).1.testBit 6 := by
  have h := byte_ready_mask _ (readSingleByte_lt sim io REGISTER_ENABLE_REG w)
  unfold isBitSet
  dsimp only
  rw [← h]
  simp only [CPU_READY]
  split <;> simp_all

theorem pollWorld_shift (sim : Sim σ) (io : TMF8801_IO) (reg : Nat) (k : Nat) (w : World σ) :
    pollWorld sim io reg (k + 1) w =
      pollWorld sim io reg k (delay sim 100 (readSingleByte sim io reg w).2) := by
  induction k with
  | zero => rfl
  | succ k ih =>
    show delay sim 100 (readSingleByte sim io reg (pollWorld sim io reg (k + 1) w)).2 = _
    rw [ih]
    rfl

theorem pollValue_shift (sim : Sim σ) (io : TMF8801_IO) (reg : Nat) (k : Nat) (w : World σ) :
    pollValue sim io reg (k + 1) w =
      pollValue sim io reg k (delay sim 100 (readSingleByte sim io reg w).2) := by
  unfold pollValue
  rw [pollWorld_shift]

theorem afterPoll_shift (sim : Sim σ) (io : TMF8801_IO) (reg : Nat) (k : Nat) (w : World σ) :
    afterPoll sim io reg (k + 1) w =
      afterPoll sim io reg k (delay sim 100 (readSingleByte sim io reg w).2) := by
  unfold afterPoll
  rw [pollWorld_shift]

/-- All polls of the ready bit fail: the loop of `cpuReady` gives up after the last
pass it can make. -/
theorem cpuReadyLoop_timeout (sim : Sim σ) (io : TMF8801_IO) :
    ∀ (n counter : Nat) (w : World σ), counter + n = 200 → 0 < n →
      (∀ k < n, (pollValue sim io REGISTER_ENABLE_REG k w).testBit 6 = false) →
      cpuReadyLoop sim io n counter w = (false, pollWorld sim io REGISTER_ENABLE_REG n w) := by
  intro n
  induction n with
  | zero => intro counter w _ h; omega
  | succ n ih =>
    intro counter w hc _ hall
    have h0 : (isBitSet sim io REGISTER_ENABLE_REG CPU_READY w).1 = false := by
      rw [isBitSet_cpu_ready]
      exact hall 0 (by omega)
    unfold cpuReadyLoop
    rw [if_pos h0, isBitSet_snd]
    by_cases hlt : counter + 1 < CPU_READY_TIMEOUT
    · rw [if_pos hlt, pollWorld_shift]
      simp only [CPU_READY_TIMEOUT] at hlt
      apply ih (counter + 1) _ (by omega) (by omega)
      intro k hk
      rw [← pollValue_shift]
      exact hall (k + 1) (by omega)
    · rw [if_neg hlt]
      simp only [CPU_READY_TIMEOUT] at hlt
      have hn : n = 0 := by omega
      subst hn
      rfl

/-- The ready bit is first found set by poll number `m`: the loop of `cpuReady`
succeeds right after that poll. -/
theorem cpuReadyLoop_ready (sim : Sim σ) (io : TMF8801_IO) :
    ∀ (n counter m : Nat) (w : World σ), counter + n = 200 → m < n →
      (∀ k < m, (pollValue sim io REGISTER_ENABLE_REG k w).testBit 6 = false) →
      (pollValue sim io REGISTER_ENABLE_REG m w).testBit 6 = true →
      cpuReadyLoop sim io n counter w = (true, afterPoll sim io REGISTER_ENABLE_REG m w) := by
  intro n
  induction n with
  | zero => intro counter m w _ h; omega
  | succ n ih =>
    intro counter m w hc hm hclear hset
    unfold cpuReadyLoop
    cases m with
    | zero =>
      have h0 : (isBitSet sim io REGISTER_ENABLE_REG CPU_READY w).1 = true := by
        rw [isBitSet_cpu_ready]
        exact hset
      rw [if_neg (by rw [h0]; simp), isBitSet_snd]
      rfl
    | succ m =>
      have h0 : (isBitSet sim io REGISTER_ENABLE_REG CPU_READY w).1 = false := by
        rw [isBitSet_cpu_ready]
        exact hclear 0 (by omega)
      rw [if_pos h0, isBitSet_snd]
      have hlt : counter + 1 < CPU_READY_TIMEOUT := by
        simp only [CPU_READY_TIMEOUT]; omega
      rw [if_pos hlt, afterPoll_shift]
      apply ih (counter + 1) m _ (by omega) (by omega)
      · intro k hk
        rw [← pollValue_shift]
        exact hclear (k + 1) (by omega)
      · rw [← pollValue_shift]
        exact hset

/-- No poll of the application ID gives `APPLICATION`: the loop of `applicationReady`
gives up after the last pass it can make. -/
theorem applicationReadyLoop_timeout (sim : Sim σ) (io : TMF8801_IO) :
    ∀ (n counter : Nat) (w : World σ), counter + n = 200 → 0 < n →
      (∀ k < n, pollValue sim io REGISTER_APPID k w ≠ APPLICATION) →
      applicationReadyLoop sim io n counter w =
        (false, pollWorld sim io REGISTER_APPID n w) := by
  intro n
  induction n with
  | zero => intro counter w _ h; omega
  | succ n ih =>
    intro counter w hc _ hall
    have h0 : decide ((readSingleByte sim io REGISTER_APPID w).1 = APPLICATION) = false := by
      have := hall 0 (by omega)
      simpa [pollValue, pollWorld] using this
    unfold applicationReadyLoop
    rw [if_pos h0]
    by_cases hlt : counter + 1 < APPLICATION_READY_TIMEOUT
    · rw [if_pos hlt, pollWorld_shift]
      simp only [APPLICATION_READY_TIMEOUT] at hlt
      apply ih (counter + 1) _ (by omega) (by omega)
      intro k hk
      rw [← pollValue_shift]
      exact hall (k + 1) (by omega)
    · rw [if_neg hlt]
      simp only [APPLICATION_READY_TIMEOUT] at hlt
      have hn : n = 0 := by omega
      subst hn
      rfl

/-- Poll number `m` of the application ID is the first to give `APPLICATION`: the loop
of `applicationReady` succeeds right after that poll. -/
theorem applicationReadyLoop_ready (sim : Sim σ) (io : TMF8801_IO) :
    ∀ (n counter m : Nat) (w : World σ), counter + n = 200 → m < n →
      (∀ k < m, pollValue sim io REGISTER_APPID k w ≠ APPLICATION) →
      pollValue sim io REGISTER_APPID m w = APPLICATION →
      applicationReadyLoop sim io n counter w =
        (true, afterPoll sim io REGISTER_APPID m w) := by
  intro n
  induction n with
  | zero => intro counter m w _ h; omega
  | succ n ih =>
    intro counter m w hc hm hclear hset
    unfold applicationReadyLoop
    cases m with
    | zero =>
      have h0 : (readSingleByte sim io REGISTER_APPID w).1 = APPLICATION := hset
      rw [if_neg (by rw [h0]; simp)]
      rfl
    | succ m =>
      have h0 : decide ((readSingleByte sim io REGISTER_APPID w).1 = APPLICATION) = false := by
        have := hclear 0 (by omega)
        simpa [pollValue, pollWorld] using this
      rw [if_pos h0]
      have hlt : counter + 1 < APPLICATION_READY_TIMEOUT := by
        simp only [APPLICATION_READY_TIMEOUT]; omega
      rw [if_pos hlt, afterPoll_shift]
      apply ih (counter + 1) m _ (by omega) (by omega)
      · intro k hk
        rw [← pollValue_shift]
        exact hclear (k + 1) (by omega)
      · rw [← pollValue_shift]
        exact hset

end Polling

section BringUp

variable {σ : Type}

open TMF8801_IO TMF8801

theorem first_index (P : Nat → Prop) [DecidablePred P] (n : Nat) (h : ∃ m, m < n ∧ P m) :
    ∃ m, m < n ∧ P m ∧ ∀ k, k < m → ¬ P k := by
  have h2 : ∃ m, P m := by
    obtain ⟨m, _, hm⟩ := h
    exact ⟨m, hm⟩
  refine ⟨Nat.find h2, ?_, Nat.find_spec h2, fun k hk => Nat.find_min h2 hk⟩
  obtain ⟨m, hmn, hm⟩ := h
  exact lt_of_le_of_lt (Nat.find_min' h2 hm) hmn

theorem cpuReady_timeout (sim : Sim σ) (self : TMF8801) (w : World σ)
    (hall : ∀ k < 200, (pollValue sim self.tmf8801_io REGISTER_ENABLE_REG k w).testBit 6 = false) :
    cpuReady sim self w = (false, pollWorld sim self.tmf8801_io REGISTER_ENABLE_REG 200 w) :=
  cpuReadyLoop_timeout sim self.tmf8801_io 200 0 w (by omega) (by omega) hall

theorem cpuReady_ready (sim : Sim σ) (self : TMF8801) (w : World σ) (m : Nat) (hm : m < 200)
    (hclear : ∀ k < m, (pollValue sim self.tmf8801_io REGISTER_ENABLE_REG k w).testBit 6 = false)
    (hset : (pollValue sim self.tmf8801_io REGISTER_ENABLE_REG m w).testBit 6 = true) :
    cpuReady sim self w = (true, afterPoll sim self.tmf8801_io REGISTER_ENABLE_REG m w) :=
  cpuReadyLoop_ready sim self.tmf8801_io 200 0 m w (by omega) hm hclear hset

theorem applicationReady_timeout (sim : Sim σ) (self : TMF8801) (w : World σ)
    (hall : ∀ k < 200, pollValue sim self.tmf8801_io REGISTER_APPID k w ≠ APPLICATION) :
    applicationReady sim self w =
      (false, pollWorld sim self.tmf8801_io REGISTER_APPID 200 w) :=
  applicationReadyLoop_timeout sim self.tmf8801_io 200 0 w (by omega) (by omega) hall

theorem applicationReady_ready (sim : Sim σ) (self : TMF8801) (w : World σ) (m : Nat)
    (hm : m < 200)
    (hclear : ∀ k < m, pollValue sim self.tmf8801_io REGISTER_APPID k w ≠ APPLICATION)
    (hset : pollValue sim self.tmf8801_io REGISTER_APPID m w = APPLICATION) :
    applicationReady sim self w = (true, afterPoll sim self.tmf8801_io REGISTER_APPID m w) :=
  applicationReadyLoop_ready sim self.tmf8801_io 200 0 m w (by omega) hm hclear hset

/-- Probe not acknowledged: `begin` stops at line 30. -/
theorem begin_probe_failed (sim : Sim σ) (self : TMF8801) (address : Nat) (w : World σ)
    (hprobe : (sim.probe address w.dev).1 ≠ 0) :
    begin sim self address w =
      (false, { beginSelf self address with lastError := ERROR_I2C_COMM_ERROR },
        (isConnected sim { _address := address } w).2) := by
  unfold TMF8801.begin
  simp [ TMF8801_IO.begin, isConnected, hprobe, beginSelf]

/-- Probe acknowledged: `begin` from line 34 on. -/
theorem begin_probe_ok (sim : Sim σ) (self : TMF8801) (address : Nat) (w : World σ)
    (hprobe : (sim.probe address w.dev).1 = 0) :
    begin sim self address w =
      if (cpuReady sim (beginSelf self address) (beginResetWorld sim address w)).1 = false then
        (false, { beginSelf self address with lastError := ERROR_CPU_RESET_TIMEOUT },
          (cpuReady sim (beginSelf self address) (beginResetWorld sim address w)).2)
      else if (readSingleByte sim { _address := address } REGISTER_ID
          (cpuReady sim (beginSelf self address) (beginResetWorld sim address w)).2).1
            ≠ CHIP_ID_NUMBER then
        (false, { beginSelf self address with lastError := ERROR_WRONG_CHIP_ID },
          (readSingleByte sim { _address := address } REGISTER_ID
            (cpuReady sim (beginSelf self address) (beginResetWorld sim address w)).2).2)
      else if (applicationReady sim (beginSelf self address)
          (writeSingleByte sim { _address := address } REGISTER_APPREQID APPLICATION
            (readSingleByte sim { _address := address } REGISTER_ID
              (cpuReady sim (beginSelf self address)
                (beginResetWorld sim address w)).2).2)).1 = false then
        (false, { beginSelf self address with lastError := ERROR_CPU_LOAD_APPLICATION_ERROR },
          (applicationReady sim (beginSelf self address)
            (writeSingleByte sim { _address := address } REGISTER_APPREQID APPLICATION
              (readSingleByte sim { _address := address } REGISTER_ID
                (cpuReady sim (beginSelf self address)
                  (beginResetWorld sim address w)).2).2)).2)
      else
        (true, { beginSelf self address with lastError := ERROR_NONE },
          delay sim 10 (loadAndStart sim (beginSelf self address)
            (applicationReady sim (beginSelf self address)
              (writeSingleByte sim { _address := address } REGISTER_APPREQID APPLICATION
                (readSingleByte sim { _address := address } REGISTER_ID
                  (cpuReady sim (beginSelf self address)
                    (beginResetWorld sim address w)).2).2)).2)) := by
  have h0 : ( TMF8801_IO.begin sim self.tmf8801_io address w).1 = true := by
    simp [ TMF8801_IO.begin, isConnected, hprobe]
  unfold TMF8801.begin
  simp only [h0]
  rfl

/-- Outcome of `begin` when the CPU-ready bit stays clear for 200 polls. -/
theorem begin_cpu_timeout (sim : Sim σ) (self : TMF8801) (address : Nat) (w : World σ)
    (hprobe : (sim.probe address w.dev).1 = 0)
    (hall : ∀ k < 200, (pollValue sim { _address := address } REGISTER_ENABLE_REG k
      (beginResetWorld sim address w)).testBit 6 = false) :
    begin sim self address w =
      (false, { beginSelf self address with lastError := ERROR_CPU_RESET_TIMEOUT },
        pollWorld sim { _address := address } REGISTER_ENABLE_REG 200
          (beginResetWorld sim address w)) := by
  have h := cpuReady_timeout sim (beginSelf self address) (beginResetWorld sim address w) hall
  rw [begin_probe_ok sim self address w hprobe, h]
  rfl

/-- Outcome of `begin` when the CPU-ready bit is first set at poll `m` and the chip ID
read is not `CHIP_ID_NUMBER`. -/
theorem begin_wrong_chip (sim : Sim σ) (self : TMF8801) (address : Nat) (w : World σ)
    (hprobe : (sim.probe address w.dev).1 = 0) (m : Nat) (hm : m < 200)
    (hclear : ∀ k < m, (pollValue sim { _address := address } REGISTER_ENABLE_REG k
      (beginResetWorld sim address w)).testBit 6 = false)
    (hset : (pollValue sim { _address := address } REGISTER_ENABLE_REG m
      (beginResetWorld sim address w)).testBit 6 = true)
    (hid : beginChipId sim address m w ≠ CHIP_ID_NUMBER) :
    begin sim self address w =
      (false, { beginSelf self address with lastError := ERROR_WRONG_CHIP_ID },
        (readSingleByte sim { _address := address } REGISTER_ID
          (afterPoll sim { _address := address } REGISTER_ENABLE_REG m
            (beginResetWorld sim address w))).2) := by
  have h := cpuReady_ready sim (beginSelf self address) (beginResetWorld sim address w) m hm
    hclear hset
  rw [begin_probe_ok sim self address w hprobe, h]
  have hid2 : (readSingleByte sim { _address := address } REGISTER_ID
      (afterPoll sim (beginSelf self address).tmf8801_io REGISTER_ENABLE_REG m
        (beginResetWorld sim address w))).1 ≠ CHIP_ID_NUMBER := hid
  rw [if_neg (by simp), if_pos hid2]
  rfl

/-- Outcome of `begin` when the CPU-ready bit is first set at poll `m`, the chip ID is
right and the application ID never reads `APPLICATION` in 200 polls. -/
theorem begin_app_timeout (sim : Sim σ) (self : TMF8801) (address : Nat) (w : World σ)
    (hprobe : (sim.probe address w.dev).1 = 0) (m : Nat) (hm : m < 200)
    (hclear : ∀ k < m, (pollValue sim { _address := address } REGISTER_ENABLE_REG k
      (beginResetWorld sim address w)).testBit 6 = false)
    (hset : (pollValue sim { _address := address } REGISTER_ENABLE_REG m
      (beginResetWorld sim address w)).testBit 6 = true)
    (hid : beginChipId sim address m w = CHIP_ID_NUMBER)
    (hall : ∀ k < 200, pollValue sim { _address := address } REGISTER_APPID k
      (beginRequestWorld sim address m w) ≠ APPLICATION) :
    begin sim self address w =
      (false, { beginSelf self address with lastError := ERROR_CPU_LOAD_APPLICATION_ERROR },
        pollWorld sim { _address := address } REGISTER_APPID 200
          (beginRequestWorld sim address m w)) := by
  have h := cpuReady_ready sim (beginSelf self address) (beginResetWorld sim address w) m hm
    hclear hset
  have h2 := applicationReady_timeout sim (beginSelf self address)
    (beginRequestWorld sim address m w) hall
  rw [begin_probe_ok sim self address w hprobe, h]
  have hid2 : (readSingleByte sim { _address := address } REGISTER_ID
      (afterPoll sim (beginSelf self address).tmf8801_io REGISTER_ENABLE_REG m
        (beginResetWorld sim address w))).1 = CHIP_ID_NUMBER := hid
  rw [if_neg (by simp), if_neg (by rw [hid2]; simp)]
  have h3 : applicationReady sim (beginSelf self address)
      (writeSingleByte sim { _address := address } REGISTER_APPREQID APPLICATION
        (readSingleByte sim { _address := address } REGISTER_ID
          (afterPoll sim (beginSelf self address).tmf8801_io REGISTER_ENABLE_REG m
            (beginResetWorld sim address w))).2) = _ := h2
  rw [h3]
  rfl

/-- Outcome of `begin` when the CPU-ready bit is first set at poll `m`, the chip ID is
right and the application ID first reads `APPLICATION` at poll `j`. -/
theorem begin_success (sim : Sim σ) (self : TMF8801) (address : Nat) (w : World σ)
    (hprobe : (sim.probe address w.dev).1 = 0) (m : Nat) (hm : m < 200)
    (hclear : ∀ k < m, (pollValue sim { _address := address } REGISTER_ENABLE_REG k
      (beginResetWorld sim address w)).testBit 6 = false)
    (hset : (pollValue sim { _address := address } REGISTER_ENABLE_REG m
      (beginResetWorld sim address w)).testBit 6 = true)
    (hid : beginChipId sim address m w = CHIP_ID_NUMBER) (j : Nat) (hj : j < 200)
    (hno : ∀ k < j, pollValue sim { _address := address } REGISTER_APPID k
      (beginRequestWorld sim address m w) ≠ APPLICATION)
    (hyes : pollValue sim { _address := address } REGISTER_APPID j
      (beginRequestWorld sim address m w) = APPLICATION) :
    begin sim self address w =
      (true, { beginSelf self address with lastError := ERROR_NONE },
        delay sim 10 (loadAndStart sim (beginSelf self address)
          (afterPoll sim { _address := address } REGISTER_APPID j
            (beginRequestWorld sim address m w)))) := by
  have h := cpuReady_ready sim (beginSelf self address) (beginResetWorld sim address w) m hm
    hclear hset
  have h2 := applicationReady_ready sim (beginSelf self address)
    (beginRequestWorld sim address m w) j hj hno hyes
  rw [begin_probe_ok sim self address w hprobe, h]
  have hid2 : (readSingleByte sim { _address := address } REGISTER_ID
      (afterPoll sim (beginSelf self address).tmf8801_io REGISTER_ENABLE_REG m
        (beginResetWorld sim address w))).1 = CHIP_ID_NUMBER := hid
  rw [if_neg (by simp), if_neg (by rw [hid2]; simp)]
  have h3 : applicationReady sim (beginSelf self address)
      (writeSingleByte sim { _address := address } REGISTER_APPREQID APPLICATION
        (readSingleByte sim { _address := address } REGISTER_ID
          (afterPoll sim (beginSelf self address).tmf8801_io REGISTER_ENABLE_REG m
            (beginResetWorld sim address w))).2) = _ := h2
  rw [h3]
  rfl

end BringUp

section Traces

variable {σ : Type}

open TMF8801_IO TMF8801

theorem readSingleByte_trace (sim : Sim σ) (io : TMF8801_IO) (r : Nat) (w : World σ) :
    (readSingleByte sim io r w).2.trace =
      w.trace ++ [Event.read io._address r 1 (sim.read io._address r 1 w.dev).1] := rfl

theorem PollTrace.step {reg polls delays : Nat} {evs : List Event}
    (h : PollTrace reg polls delays evs) (a : Nat) (got : List Nat) :
    PollTrace reg (polls + 1) (delays + 1) (evs ++ [Event.read a reg 1 got, Event.delay 100]) := by
  obtain ⟨h1, h2, h3⟩ := h
  refine ⟨?_, ?_, ?_⟩
  · intro e he
    rw [List.mem_append] at he
    rcases he with he | he
    · exact h1 e he
    · simp only [List.mem_cons, List.mem_singleton, List.not_mem_nil, or_false] at he
      rcases he with he | he
      · left; rw [he]; simp [Event.isReadOf]
      · right; exact he
  · rw [List.countP_append, h2]
    simp [List.countP_cons, Event.isReadOf]
  · rw [List.count_append, h3]
    simp [List.count_cons]

theorem PollTrace.last {reg polls delays : Nat} {evs : List Event}
    (h : PollTrace reg polls delays evs) (a : Nat) (got : List Nat) :
    PollTrace reg (polls + 1) delays (evs ++ [Event.read a reg 1 got]) := by
  obtain ⟨h1, h2, h3⟩ := h
  refine ⟨?_, ?_, ?_⟩
  · intro e he
    rw [List.mem_append] at he
    rcases he with he | he
    · exact h1 e he
    · simp only [List.mem_singleton] at he
      left; rw [he]; simp [Event.isReadOf]
  · rw [List.countP_append, h2]
    simp [List.countP_cons, Event.isReadOf]
  · rw [List.count_append, h3]
    simp [List.count_cons]

/-- After `k` unsuccessful polls the trace has grown by `k` reads of the register and
`k` delays of 100 ms. -/
theorem pollWorld_trace (sim : Sim σ) (io : TMF8801_IO) (reg : Nat) (k : Nat) (w : World σ) :
    ∃ evs, (pollWorld sim io reg k w).trace = w.trace ++ evs ∧ PollTrace reg k k evs := by
  induction k with
  | zero => exact ⟨[], by simp [pollWorld], by simp [PollTrace]⟩
  | succ k ih =>
    obtain ⟨evs, h1, h2⟩ := ih
    refine ⟨evs ++ [Event.read io._address reg 1
      (sim.read io._address reg 1 (pollWorld sim io reg k w).dev).1, Event.delay 100], ?_,
      h2.step _ _⟩
    show ((readSingleByte sim io reg (pollWorld sim io reg k w)).2.trace ++ [Event.delay 100]) = _
    rw [readSingleByte_trace, h1]
    simp

/-- Up to and including poll number `k` (counted from 0): `k + 1` reads of the
register and `k` delays of 100 ms. -/
theorem afterPoll_trace (sim : Sim σ) (io : TMF8801_IO) (reg : Nat) (k : Nat) (w : World σ) :
    ∃ evs, (afterPoll sim io reg k w).trace = w.trace ++ evs ∧
      PollTrace reg (k + 1) k evs := by
  obtain ⟨evs, h1, h2⟩ := pollWorld_trace sim io reg k w
  refine ⟨evs ++ [Event.read io._address reg 1
    (sim.read io._address reg 1 (pollWorld sim io reg k w).dev).1], ?_, h2.last _ _⟩
  unfold afterPoll
  rw [readSingleByte_trace, h1]
  simp

end Traces

/-- C2: with the probe acknowledged, `begin` fails with `ERROR_CPU_RESET_TIMEOUT`
exactly when bit 6 of the enable register reads clear on each of the 200 polls; and
for every `N` in 1..200, when the bit first reads set on poll number `N`, `cpuReady`
returns true in the world right after that poll, having made `N` reads of the enable
register and `N - 1` calls of `delay(100)` and nothing else. -/
theorem C2_cpu_reset_timeout {σ : Type} (sim : Sim σ) (self : TMF8801) (address : Nat)
    (w : World σ) (hprobe : (sim.probe address w.dev).1 = 0) :
    (((TMF8801.begin sim self address w).1 = false ∧
        (TMF8801.begin sim self address w).2.1.lastError = ERROR_CPU_RESET_TIMEOUT) ↔
      ∀ k < 200, (pollValue sim { _address := address } REGISTER_ENABLE_REG k
        (beginResetWorld sim address w)).testBit 6 = false) ∧
    (∀ (w0 : World σ) (N : Nat), 1 ≤ N → N ≤ 200 →
      (∀ k < N - 1, (pollValue sim self.tmf8801_io REGISTER_ENABLE_REG k w0).testBit 6 = false) →
      (pollValue sim self.tmf8801_io REGISTER_ENABLE_REG (N - 1) w0).testBit 6 = true →
      TMF8801.cpuReady sim self w0 =
        (true, afterPoll sim self.tmf8801_io REGISTER_ENABLE_REG (N - 1) w0) ∧
      ∃ evs, (TMF8801.cpuReady sim self w0).2.trace = w0.trace ++ evs ∧
        PollTrace REGISTER_ENABLE_REG N (N - 1) evs) := by
  constructor
  · constructor
    · rintro ⟨hres, herr⟩
      by_contra hne
      have hex : ∃ m, m < 200 ∧ (pollValue sim { _address := address } REGISTER_ENABLE_REG m
          (beginResetWorld sim address w)).testBit 6 = true := by
        by_contra hno
        apply hne
        intro k hk
        by_contra hk2
        exact hno ⟨k, hk, by simpa using hk2⟩
      obtain ⟨m, hm, hset, hmin⟩ := first_index _ 200 hex
      have hclear : ∀ k < m, (pollValue sim { _address := address } REGISTER_ENABLE_REG k
          (beginResetWorld sim address w)).testBit 6 = false := by
        intro k hk
        simpa using hmin k hk
      have hready := cpuReady_ready sim (beginSelf self address)
        (beginResetWorld sim address w) m hm hclear hset
      rw [begin_probe_ok sim self address w hprobe, hready] at herr
      rw [if_neg (by simp)] at herr
      split at herr
      · simp at herr
      · split at herr <;> simp at herr
    · intro hall
      rw [begin_cpu_timeout sim self address w hprobe hall]
      exact ⟨rfl, rfl⟩
  · intro w0 N h1 h200 hclear hset
    have hready := cpuReady_ready sim self w0 (N - 1) (by omega) hclear hset
    refine ⟨hready, ?_⟩
    rw [hready]
    obtain ⟨evs, he, ht⟩ := afterPoll_trace sim self.tmf8801_io REGISTER_ENABLE_REG (N - 1) w0
    refine ⟨evs, he, ?_⟩
    have hN : N - 1 + 1 = N := by omega
    rw [hN] at ht
    exact ht

theorem C2_cpu_reset_timeout_witness :
    (deadBoard.sim.probe 0x41 World.fresh.dev).1 = 0 ∧
    (TMF8801.begin deadBoard.sim TMF8801.blank 0x41 World.fresh).1 = false ∧
    (TMF8801.begin deadBoard.sim TMF8801.blank 0x41 World.fresh).2.1.lastError =
      ERROR_CPU_RESET_TIMEOUT ∧
    ((bootBoard 7).sim.probe 0x41 World.fresh.dev).1 = 0 ∧
    (TMF8801.cpuReady (bootBoard 7).sim (beginSelf TMF8801.blank 0x41)
      (beginResetWorld (bootBoard 7).sim 0x41 World.fresh)).1 = true ∧
    ∃ evs, (TMF8801.cpuReady (bootBoard 7).sim (beginSelf TMF8801.blank 0x41)
        (beginResetWorld (bootBoard 7).sim 0x41 World.fresh)).2.trace =
        (beginResetWorld (bootBoard 7).sim 0x41 World.fresh).trace ++ evs ∧
      PollTrace REGISTER_ENABLE_REG 3 2 evs := by
  have hdead := (C2_cpu_reset_timeout deadBoard.sim TMF8801.blank 0x41 World.fresh rfl).1.mpr
    (by
      intro k _
      simp [pollValue, TMF8801_IO.readSingleByte, Board.sim, deadBoard, Board.show,
        List.range_succ]
      decide)
  have hboot := (C2_cpu_reset_timeout (bootBoard 7).sim (beginSelf TMF8801.blank 0x41) 0x41
    World.fresh rfl).2 (beginResetWorld (bootBoard 7).sim 0x41 World.fresh) 3
    (by decide) (by decide) (by decide) (by decide)
  refine ⟨rfl, hdead.1, hdead.2, rfl, ?_, hboot.2⟩
  rw [hboot.1]

set_option maxRecDepth 1000000 in
/-- Counterexample to C3 as stated: the chip-ID register of `deadBoard` reads `0x08`,
yet `begin` ends with `ERROR_CPU_RESET_TIMEOUT`, not `ERROR_WRONG_CHIP_ID`, because the
CPU-ready bit of the enable register never reads set and the chip ID is never read. -/
theorem C3_counterexample :
    (∀ s : BoardState, deadBoard.show s REGISTER_ID = 0x08) ∧
    (TMF8801.begin deadBoard.sim TMF8801.blank 0x41 World.fresh).1 = false ∧
    (TMF8801.begin deadBoard.sim TMF8801.blank 0x41 World.fresh).2.1.lastError =
      ERROR_CPU_RESET_TIMEOUT ∧
    (TMF8801.begin deadBoard.sim TMF8801.blank 0x41 World.fresh).2.1.lastError ≠
      ERROR_WRONG_CHIP_ID ∧
    (TMF8801.begin deadBoard.sim TMF8801.blank 0x41 World.fresh).2.2.trace.all
      (fun e => !e.isReadOf REGISTER_ID) = true := by
  refine ⟨fun s => rfl, ?_, ?_, ?_, ?_⟩ <;> decide

/-- C3 (amended): when the probe is acknowledged and the CPU-ready bit reads set within
200 polls (first at poll `m`), a chip-ID byte other than `0x07` makes `begin` return
false with `ERROR_WRONG_CHIP_ID`, whatever any other register holds; the chip-ID read
is the last bus transaction of the call. -/
theorem C3_wrong_chip_id {σ : Type} (sim : Sim σ) (self : TMF8801) (address : Nat)
    (w : World σ) (hprobe : (sim.probe address w.dev).1 = 0) (m : Nat) (hm : m < 200)
    (hclear : ∀ k < m, (pollValue sim { _address := address } REGISTER_ENABLE_REG k
      (beginResetWorld sim address w)).testBit 6 = false)
    (hset : (pollValue sim { _address := address } REGISTER_ENABLE_REG m
      (beginResetWorld sim address w)).testBit 6 = true)
    (hid : beginChipId sim address m w ≠ CHIP_ID_NUMBER) :
    (TMF8801.begin sim self address w).1 = false ∧
    (TMF8801.begin sim self address w).2.1.lastError = ERROR_WRONG_CHIP_ID ∧
    (TMF8801.begin sim self address w).2.2 =
      ( TMF8801_IO.readSingleByte sim { _address := address } REGISTER_ID
        (afterPoll sim { _address := address } REGISTER_ENABLE_REG m
          (beginResetWorld sim address w))).2 := by
  rw [begin_wrong_chip sim self address w hprobe m hm hclear hset hid]
  exact ⟨rfl, rfl, rfl⟩

theorem C3_wrong_chip_id_witness :
    ((bootBoard 0x08).sim.probe 0x41 World.fresh.dev).1 = 0 ∧
    beginChipId (bootBoard 0x08).sim 0x41 2 World.fresh = 0x08 ∧
    (TMF8801.begin (bootBoard 0x08).sim TMF8801.blank 0x41 World.fresh).1 = false ∧
    (TMF8801.begin (bootBoard 0x08).sim TMF8801.blank 0x41 World.fresh).2.1.lastError =
      ERROR_WRONG_CHIP_ID := by
  have h := C3_wrong_chip_id (bootBoard 0x08).sim TMF8801.blank 0x41 World.fresh rfl 2
    (by decide) (by decide) (by decide) (by decide)
  exact ⟨rfl, by decide, h.1, h.2.1⟩

section BringUpResult

variable {σ : Type}

open TMF8801_IO TMF8801

theorem begin_true_lastError (sim : Sim σ) (self : TMF8801) (address : Nat) (w : World σ)
    (h : (begin sim self address w).1 = true) :
    (begin sim self address w).2.1.lastError = ERROR_NONE := by
  unfold TMF8801.begin at h ⊢
  dsimp only at h ⊢
  split_ifs at h ⊢
  all_goals simp_all

theorem exists_or_all_clear (P : Nat → Prop) [DecidablePred P] (n : Nat) :
    (∃ m, m < n ∧ P m ∧ ∀ k, k < m → ¬ P k) ∨ ∀ k, k < n → ¬ P k := by
  by_cases h : ∃ m, m < n ∧ P m
  · exact Or.inl (first_index P n h)
  · right
    intro k hk hp
    exact h ⟨k, hk, hp⟩

/-- What a true result of `begin` says about the run. -/
theorem begin_true_cases (sim : Sim σ) (self : TMF8801) (address : Nat) (w : World σ)
    (htrue : (begin sim self address w).1 = true) :
    (sim.probe address w.dev).1 = 0 ∧
    ∃ m, m < 200 ∧
      (∀ k < m, (pollValue sim { _address := address } REGISTER_ENABLE_REG k
        (beginResetWorld sim address w)).testBit 6 = false) ∧
      (pollValue sim { _address := address } REGISTER_ENABLE_REG m
        (beginResetWorld sim address w)).testBit 6 = true ∧
      beginChipId sim address m w = CHIP_ID_NUMBER ∧
      ∃ j, j < 200 ∧
        (∀ k < j, pollValue sim { _address := address } REGISTER_APPID k
          (beginRequestWorld sim address m w) ≠ APPLICATION) ∧
        pollValue sim { _address := address } REGISTER_APPID j
          (beginRequestWorld sim address m w) = APPLICATION := by
  by_cases hprobe : (sim.probe address w.dev).1 = 0
  · refine ⟨hprobe, ?_⟩
    rcases exists_or_all_clear (fun k => (pollValue sim { _address := address }
      REGISTER_ENABLE_REG k (beginResetWorld sim address w)).testBit 6 = true) 200 with
      ⟨m, hm, hset, hmin⟩ | hnone
    · have hclear : ∀ k < m, (pollValue sim { _address := address } REGISTER_ENABLE_REG k
          (beginResetWorld sim address w)).testBit 6 = false := by
        intro k hk
        simpa using hmin k hk
      refine ⟨m, hm, hclear, hset, ?_⟩
      by_cases hid : beginChipId sim address m w = CHIP_ID_NUMBER
      · refine ⟨hid, ?_⟩
        rcases exists_or_all_clear (fun k => pollValue sim { _address := address }
          REGISTER_APPID k (beginRequestWorld sim address m w) = APPLICATION) 200 with
          ⟨j, hj, hyes, hjmin⟩ | hall
        · exact ⟨j, hj, fun k hk => hjmin k hk, hyes⟩
        · rw [begin_app_timeout sim self address w hprobe m hm hclear hset hid
            (fun k hk => hall k hk)] at htrue
          simp at htrue
      · rw [begin_wrong_chip sim self address w hprobe m hm hclear hset hid] at htrue
        simp at htrue
    · have hall : ∀ k < 200, (pollValue sim { _address := address } REGISTER_ENABLE_REG k
          (beginResetWorld sim address w)).testBit 6 = false := by
        intro k hk
        simpa using hnone k hk
      rw [begin_cpu_timeout sim self address w hprobe hall] at htrue
      simp at htrue
  · rw [begin_probe_failed sim self address w hprobe] at htrue
    simp at htrue

end BringUpResult

/-- C4: `begin` returns true exactly when the probe is acknowledged, the CPU-ready bit
reads set within 200 polls (first at some poll `m`), the chip-ID byte read next is
`0x07`, and the application-ID register reads `0xC0` within 200 polls after the
application request; and whenever it returns true, `lastError` is `ERROR_NONE`,
whatever it was before the call. -/
theorem C4_begin_success {σ : Type} (sim : Sim σ) (self : TMF8801) (address : Nat)
    (w : World σ) :
    ((TMF8801.begin sim self address w).1 = true ↔
      (sim.probe address w.dev).1 = 0 ∧
      ∃ m, m < 200 ∧
        (∀ k < m, (pollValue sim { _address := address } REGISTER_ENABLE_REG k
          (beginResetWorld sim address w)).testBit 6 = false) ∧
        (pollValue sim { _address := address } REGISTER_ENABLE_REG m
          (beginResetWorld sim address w)).testBit 6 = true ∧
        beginChipId sim address m w = CHIP_ID_NUMBER ∧
        ∃ j, j < 200 ∧ pollValue sim { _address := address } REGISTER_APPID j
          (beginRequestWorld sim address m w) = APPLICATION) ∧
    ((TMF8801.begin sim self address w).1 = true →
      (TMF8801.begin sim self address w).2.1.lastError = ERROR_NONE) := by
  refine ⟨⟨?_, ?_⟩, begin_true_lastError sim self address w⟩
  · intro htrue
    obtain ⟨hprobe, m, hm, hclear, hset, hid, j, hj, _, hyes⟩ :=
      begin_true_cases sim self address w htrue
    exact ⟨hprobe, m, hm, hclear, hset, hid, j, hj, hyes⟩
  · rintro ⟨hprobe, m, hm, hclear, hset, hid, hex⟩
    obtain ⟨j, hj, hyes, hmin⟩ := first_index _ 200 hex
    rw [begin_success sim self address w hprobe m hm hclear hset hid j hj
      (fun k hk => hmin k hk) hyes]

theorem C4_begin_success_witness :
    (TMF8801.begin (bootBoard 0x07).sim { TMF8801.blank with lastError := 5 } 0x41
      World.fresh).1 = true ∧
    (TMF8801.begin (bootBoard 0x07).sim { TMF8801.blank with lastError := 5 } 0x41
      World.fresh).2.1.lastError = ERROR_NONE ∧
    ((TMF8801.begin (bootBoard 0x07).sim { TMF8801.blank with lastError := 5 } 0x41
      World.fresh).2.2.trace.filter (Event.isReadOf REGISTER_ENABLE_REG)).length = 4 ∧
    ((TMF8801.begin (bootBoard 0x07).sim { TMF8801.blank with lastError := 5 } 0x41
      World.fresh).2.2.trace.filter (Event.isReadOf REGISTER_APPID)).length = 2 := by
  have h := C4_begin_success (bootBoard 0x07).sim { TMF8801.blank with lastError := 5 } 0x41
    World.fresh
  have htrue := h.1.mpr ⟨rfl, 2, by decide, by decide, by decide, by decide, 1, by decide,
    by decide⟩
  exact ⟨htrue, h.2 htrue, by decide, by decide⟩

section ReadBack

variable {σ : Type}

open TMF8801_IO TMF8801

theorem calibWorld_shift (sim : Sim σ) (io : TMF8801_IO) (k : Nat) (w : World σ) :
    calibWorld sim io (k + 1) w = calibWorld sim io k (calibPass sim io w) := by
  induction k with
  | zero => rfl
  | succ k ih =>
    show calibPass sim io (calibWorld sim io (k + 1) w) = _
    rw [ih]
    rfl

theorem calibStatus_shift (sim : Sim σ) (io : TMF8801_IO) (k : Nat) (w : World σ) :
    calibStatus sim io (k + 1) w = calibStatus sim io k (calibPass sim io w) := by
  unfold calibStatus
  rw [calibWorld_shift]

theorem calibElapsed_shift (sim : Sim σ) (io : TMF8801_IO) (start k : Nat) (w : World σ) :
    calibElapsed sim io start (k + 1) w = calibElapsed sim io start k (calibPass sim io w) := by
  unfold calibElapsed
  rw [calibWorld_shift]

/-- The loop of `getCalibrationData` when `n` passes find the content not ready and
the elapsed time first reaches 30000 at the end of pass number `n - 1`. -/
theorem getCalibrationLoop_timeout (sim : Sim σ) (io : TMF8801_IO) (start : Nat) :
    ∀ (n fuel : Nat) (buf : List Nat) (w : World σ), 0 < n → n ≤ fuel →
      (∀ k < n, calibStatus sim io k w ≠ CONTENT_CALIBRATION) →
      (∀ k < n - 1, calibElapsed sim io start k w < 30000) →
      ¬ calibElapsed sim io start (n - 1) w < 30000 →
      getCalibrationLoop sim io start fuel buf w = some (false, buf, calibWorld sim io n w) := by
  intro n
  induction n with
  | zero => intro fuel buf w h; omega
  | succ n ih =>
    intro fuel buf w _ hfuel hstatus hin hout
    cases fuel with
    | zero => omega
    | succ fuel =>
      have h0 : (readSingleByte sim io REGISTER_REGISTER_CONTENTS
          (delay sim 10 (writeSingleByte sim io REGISTER_COMMAND COMMAND_FACTORY_CALIBRATION
            w))).1 ≠ CONTENT_CALIBRATION := hstatus 0 (by omega)
      unfold getCalibrationLoop
      dsimp only
      rw [if_neg h0]
      cases n with
      | zero =>
        have h1 : ¬ ((millis sim (delay sim 50 (readSingleByte sim io REGISTER_REGISTER_CONTENTS
            (delay sim 10 (writeSingleByte sim io REGISTER_COMMAND
              COMMAND_FACTORY_CALIBRATION w))).2)).1 + 2 ^ 32 - start) % 2 ^ 32 < 30000 := hout
        rw [if_neg h1]
        rfl
      | succ n =>
        have h1 : ((millis sim (delay sim 50 (readSingleByte sim io REGISTER_REGISTER_CONTENTS
            (delay sim 10 (writeSingleByte sim io REGISTER_COMMAND
              COMMAND_FACTORY_CALIBRATION w))).2)).1 + 2 ^ 32 - start) % 2 ^ 32 < 30000 :=
          hin 0 (by omega)
        rw [if_pos h1, calibWorld_shift]
        apply ih fuel buf _ (by omega) (by omega)
        · intro k hk
          have h2 := hstatus (k + 1) (by omega)
          rw [calibStatus_shift] at h2
          exact h2
        · intro k hk
          have h2 := hin (k + 1) (by omega)
          rw [calibElapsed_shift] at h2
          exact h2
        · have h2 := hout
          rw [show n + 1 + 1 - 1 = (n + 1 - 1) + 1 by omega, calibElapsed_shift] at h2
          exact h2

end ReadBack

/-- C5: when the content-status register does not read `0x0A` on any of the `n` polls
that `getCalibrationData` makes before the elapsed time `millis() - calibrationStart`
reaches 30000 (it is below 30000 after each of the first `n - 1` passes and not after
pass `n`), the call returns false with `lastError = ERROR_FACTORY_CALIBRATION_ERROR`,
the caller's buffer is returned as it was, and nothing else of the object changes. -/
theorem C5_calibration_timeout {σ : Type} (sim : Sim σ) (self : TMF8801) (buf : List Nat)
    (w : World σ) (n fuel : Nat) (hn : 0 < n) (hfuel : n ≤ fuel)
    (hstatus : ∀ k < n, calibStatus sim self.tmf8801_io k (calibEntry sim self.tmf8801_io w) ≠
      CONTENT_CALIBRATION)
    (hin : ∀ k < n - 1, calibElapsed sim self.tmf8801_io (calibStart sim self.tmf8801_io w) k
      (calibEntry sim self.tmf8801_io w) < 30000)
    (hout : ¬ calibElapsed sim self.tmf8801_io (calibStart sim self.tmf8801_io w) (n - 1)
      (calibEntry sim self.tmf8801_io w) < 30000) :
    TMF8801.getCalibrationData sim fuel self buf w =
      some (false, { self with lastError := ERROR_FACTORY_CALIBRATION_ERROR }, buf,
        calibWorld sim self.tmf8801_io n (calibEntry sim self.tmf8801_io w)) := by
  have h := getCalibrationLoop_timeout sim self.tmf8801_io (calibStart sim self.tmf8801_io w)
    n fuel buf (calibEntry sim self.tmf8801_io w) hn hfuel hstatus hin hout
  unfold TMF8801.getCalibrationData
  unfold calibStart calibEntry at h
  simp only [h]
  rfl

theorem C5_calibration_timeout_witness :
    (∀ k < 5, calibStatus hastyBoard.sim ⟨0x41⟩ k (calibEntry hastyBoard.sim ⟨0x41⟩ World.fresh)
      ≠ CONTENT_CALIBRATION) ∧
    calibElapsed hastyBoard.sim ⟨0x41⟩ (calibStart hastyBoard.sim ⟨0x41⟩ World.fresh) 3
      (calibEntry hastyBoard.sim ⟨0x41⟩ World.fresh) = 24000 ∧
    calibElapsed hastyBoard.sim ⟨0x41⟩ (calibStart hastyBoard.sim ⟨0x41⟩ World.fresh) 4
      (calibEntry hastyBoard.sim ⟨0x41⟩ World.fresh) = 30000 ∧
    (TMF8801.getCalibrationData hastyBoard.sim 7 (beginSelf TMF8801.blank 0x41)
      [1, 2, 3, 4, 5, 6, 7, 8, 9, 10, 11, 12, 13, 14] World.fresh).map
        (fun r => (r.1, r.2.1, r.2.2.1)) =
      some (false,
        { beginSelf TMF8801.blank 0x41 with lastError := ERROR_FACTORY_CALIBRATION_ERROR },
        [1, 2, 3, 4, 5, 6, 7, 8, 9, 10, 11, 12, 13, 14]) := by
  have h := C5_calibration_timeout hastyBoard.sim (beginSelf TMF8801.blank 0x41)
    [1, 2, 3, 4, 5, 6, 7, 8, 9, 10, 11, 12, 13, 14] World.fresh 5 7 (by decide) (by decide)
    (by decide) (by decide) (by decide)
  refine ⟨by decide, by decide, by decide, ?_⟩
  rw [h]
  rfl

section Nibbles

set_option maxRecDepth 100000 in
theorem byte_gpio0 :
    ∀ v < 256, ∀ m < 6, ((v &&& 0xf0) + m) % 256 % 16 = m ∧
      ((v &&& 0xf0) + m) % 256 / 16 = v / 16 := by
  decide

set_option maxRecDepth 100000 in
theorem byte_gpio1 :
    ∀ v < 256, ∀ m < 6, ((v &&& 0x0f) + (m <<< 4)) % 256 / 16 = m ∧
      ((v &&& 0x0f) + (m <<< 4)) % 256 % 16 = v % 16 := by
  decide

end Nibbles

/-- C7: for a valid mode `m` in 0..5, `setGPIO0Mode` reads the command-data register
`0x0F`, forms the byte whose low nibble is `m` and whose high nibble is that of the
byte read, stores it in `commandDataValues[CMD_DATA_5]` and writes it, followed by
`0x0f`, to `0x0F`; `setGPIO1Mode` does the same with high nibble `m` and the low nibble
of the byte read. No other member changes. For `m > 5` both return with the object and
the world (hence the buffer, the bus and `lastError`) exactly as they were. -/
theorem C7_gpio_mode_setters {σ : Type} (sim : Sim σ) (self : TMF8801) (m : Nat)
    (w : World σ) :
    (m ≤ 5 →
      (∃ b, b % 16 = m ∧
        b / 16 = ( TMF8801_IO.readSingleByte sim self.tmf8801_io REGISTER_CMD_DATA0 w).1 / 16 ∧
        (TMF8801.setGPIO0Mode sim self m w).1 =
          { self with commandDataValues := self.commandDataValues.set CMD_DATA_5 b } ∧
        (TMF8801.setGPIO0Mode sim self m w).2.trace =
          ( TMF8801_IO.readSingleByte sim self.tmf8801_io REGISTER_CMD_DATA0 w).2.trace ++
            [Event.write self.tmf8801_io._address REGISTER_CMD_DATA0 [b, 0x0f]]) ∧
      (∃ b, b / 16 = m ∧
        b % 16 = ( TMF8801_IO.readSingleByte sim self.tmf8801_io REGISTER_CMD_DATA0 w).1 % 16 ∧
        (TMF8801.setGPIO1Mode sim self m w).1 =
          { self with commandDataValues := self.commandDataValues.set CMD_DATA_5 b } ∧
        (TMF8801.setGPIO1Mode sim self m w).2.trace =
          ( TMF8801_IO.readSingleByte sim self.tmf8801_io REGISTER_CMD_DATA0 w).2.trace ++
            [Event.write self.tmf8801_io._address REGISTER_CMD_DATA0 [b, 0x0f]])) ∧
    (5 < m →
      TMF8801.setGPIO0Mode sim self m w = (self, w) ∧
      TMF8801.setGPIO1Mode sim self m w = (self, w)) := by
  constructor
  · intro hm
    have hv := readSingleByte_lt sim self.tmf8801_io REGISTER_CMD_DATA0 w
    have h0 := byte_gpio0 _ hv m (by omega)
    have h1 := byte_gpio1 _ hv m (by omega)
    have hle : ¬ m > MODE_HIGH_OUTPUT := by unfold MODE_HIGH_OUTPUT; omega
    constructor
    · refine ⟨_, h0.1, h0.2, ?_, ?_⟩
      · unfold TMF8801.setGPIO0Mode
        rw [if_neg hle]
      · unfold TMF8801.setGPIO0Mode
        rw [if_neg hle]
        rfl
    · refine ⟨_, h1.1, h1.2, ?_, ?_⟩
      · unfold TMF8801.setGPIO1Mode
        rw [if_neg hle]
      · unfold TMF8801.setGPIO1Mode
        rw [if_neg hle]
        rfl
  · intro hm
    have hgt : m > MODE_HIGH_OUTPUT := by unfold MODE_HIGH_OUTPUT; omega
    constructor
    · unfold TMF8801.setGPIO0Mode
      rw [if_pos hgt]
    · unfold TMF8801.setGPIO1Mode
      rw [if_pos hgt]

theorem C7_gpio_mode_setters_witness :
    (4 : Nat) ≤ 5 ∧ (5 : Nat) < 6 ∧
    (TMF8801.setGPIO0Mode plainBoard.sim TMF8801.blank 4
      { dev := { regs := fun r => if r = 0x0F then 0x35 else 0, now := 0 }, trace := [] }).2.trace =
      [Event.read 0 0x0F 1 [0x35], Event.write 0 0x0F [0x34, 0x0f]] ∧
    (TMF8801.setGPIO1Mode plainBoard.sim TMF8801.blank 4
      { dev := { regs := fun r => if r = 0x0F then 0x35 else 0, now := 0 }, trace := [] }).2.trace =
      [Event.read 0 0x0F 1 [0x35], Event.write 0 0x0F [0x45, 0x0f]] ∧
    (TMF8801.setGPIO0Mode plainBoard.sim TMF8801.blank 6 World.fresh).1 = TMF8801.blank ∧
    (TMF8801.setGPIO0Mode plainBoard.sim TMF8801.blank 6 World.fresh).2.trace = [] ∧
    (TMF8801.setGPIO1Mode plainBoard.sim TMF8801.blank 6 World.fresh).1 = TMF8801.blank ∧
    (TMF8801.setGPIO1Mode plainBoard.sim TMF8801.blank 6 World.fresh).2.trace = [] := by
  have hbad := (C7_gpio_mode_setters plainBoard.sim TMF8801.blank 6 World.fresh).2 (by decide)
  have hok := (C7_gpio_mode_setters plainBoard.sim TMF8801.blank 4
    { dev := { regs := fun r => if r = 0x0F then 0x35 else 0, now := 0 }, trace := [] }).1
    (by decide)
  refine ⟨by decide, by decide, by decide, by decide, ?_, ?_, ?_, ?_⟩
  · rw [hbad.1]
  · rw [hbad.1]; rfl
  · rw [hbad.2]
  · rw [hbad.2]; rfl

section IntReturn

theorem intOfBits_small (bits x : Nat) (h : x < 2 ^ (bits - 1)) :
    intOfBits bits x = (x : Int) := by
  have hle : 2 ^ (bits - 1) ≤ 2 ^ bits := Nat.pow_le_pow_right (by decide) (by omega)
  have hmod : x % 2 ^ bits = x := Nat.mod_eq_of_lt (by omega)
  unfold intOfBits
  rw [hmod, if_pos h]

end IntReturn

set_option maxRecDepth 100000 in
/-- Counterexample to C8 as stated: on a platform whose `int` has 16 bits, when the
block read from `0x20..0x23` is `07 C5 34 80`, `doMeasurement` stores the peak distance
`0x8034 = 32820`, but `getDistance`, whose return type is `int`, returns `-32716`. -/
theorem C8_counterexample :
    intBits = 16 ∧
    (TMF8801.getDistance plainBoard.sim intBits TMF8801.blank [0, 0, 0, 0]
      (World.measured 7 0xC5 0x34 0x80)).2.1.distancePeak = 0x34 + 256 * 0x80 ∧
    (TMF8801.getDistance plainBoard.sim intBits TMF8801.blank [0, 0, 0, 0]
      (World.measured 7 0xC5 0x34 0x80)).1 = -32716 ∧
    (TMF8801.getDistance plainBoard.sim intBits TMF8801.blank [0, 0, 0, 0]
      (World.measured 7 0xC5 0x34 0x80)).1 ≠
      (((TMF8801.getDistance plainBoard.sim intBits TMF8801.blank [0, 0, 0, 0]
        (World.measured 7 0xC5 0x34 0x80)).2.1.distancePeak : Nat) : Int) := by
  refine ⟨rfl, ?_, ?_, ?_⟩ <;> decide

/-- C8 (amended): when the four-byte read at `0x20` yields the bytes `b0, b1, b2, b3`,
`doMeasurement` sets `resultNumber = b0`, `resultInfo = b1` and
`distancePeak = b2 + 256 * b3` (at most 65535) and leaves every other member as it was.
`getDistance`, whose measurement read happens after `clearInterruptFlag`, leaves the
same object and returns the stored peak distance converted to an `int` of `intWidth`
bits (at least 16): that is the stored value itself whenever `int` has more than 16
bits or `b3 < 0x80`. -/
theorem C8_measurement_snapshot {σ : Type} (sim : Sim σ) (intWidth : Nat) (self : TMF8801)
    (buffer : List Nat) (w : World σ) (b0 b1 b2 b3 : Nat)
    (h0 : b0 < 256) (h1 : b1 < 256) (h2 : b2 < 256) (h3 : b3 < 256)
    (hwidth : 16 ≤ intWidth)
    (hread : (sim.read self.tmf8801_io._address REGISTER_RESULT_NUMBER 4 w.dev).1 =
      [b0, b1, b2, b3]) :
    (TMF8801.doMeasurement sim self buffer w).1 =
      { self with resultNumber := b0, resultInfo := b1, distancePeak := b2 + 256 * b3 } ∧
    b2 + 256 * b3 ≤ 65535 ∧
    (∀ w0 : World σ, TMF8801.clearInterruptFlag sim self w0 = w →
      (TMF8801.getDistance sim intWidth self buffer w0).2.1 =
        { self with resultNumber := b0, resultInfo := b1, distancePeak := b2 + 256 * b3 } ∧
      (TMF8801.getDistance sim intWidth self buffer w0).1 =
        intOfBits intWidth (b2 + 256 * b3) ∧
      (16 < intWidth ∨ b3 < 0x80 →
        (TMF8801.getDistance sim intWidth self buffer w0).1 = ((b2 + 256 * b3 : Nat) : Int))) := by
  have hd : (TMF8801.doMeasurement sim self buffer w).1 =
      { self with resultNumber := b0, resultInfo := b1, distancePeak := b2 + 256 * b3 } := by
    unfold TMF8801.doMeasurement TMF8801_IO.readMultipleBytes
    simp only [hread]
    simp [Nat.mod_eq_of_lt h0, Nat.mod_eq_of_lt h1, Nat.mod_eq_of_lt h2, Nat.mod_eq_of_lt h3,
      Nat.shiftLeft_eq]
    omega
  refine ⟨hd, by omega, ?_⟩
  intro w0 hw0
  have hret : (TMF8801.getDistance sim intWidth self buffer w0).1 =
      intOfBits intWidth (b2 + 256 * b3) := by
    unfold TMF8801.getDistance
    simp only [hw0, hd]
  refine ⟨?_, hret, ?_⟩
  · unfold TMF8801.getDistance
    simp only [hw0, hd]
  · intro hfit
    rw [hret]
    apply intOfBits_small
    rcases hfit with hwide | hb3
    · have hpow : 2 ^ 16 ≤ 2 ^ (intWidth - 1) := Nat.pow_le_pow_right (by decide) (by omega)
      omega
    · have hpow : 2 ^ 15 ≤ 2 ^ (intWidth - 1) := Nat.pow_le_pow_right (by decide) (by omega)
      omega

theorem C8_measurement_snapshot_witness :
    (16 : Nat) ≤ 16 ∧
    (TMF8801.getDistance plainBoard.sim 16 TMF8801.blank [0, 0, 0, 0]
      (World.measured 7 0xC5 0x34 0x12)).1 = 0x1234 ∧
    (TMF8801.getDistance plainBoard.sim 16 TMF8801.blank [0, 0, 0, 0]
      (World.measured 7 0xC5 0x34 0x12)).2.1 =
      { TMF8801.blank with resultNumber := 7, resultInfo := 0xC5, distancePeak := 0x1234 } := by
  have h := (C8_measurement_snapshot plainBoard.sim 16 TMF8801.blank [0, 0, 0, 0]
    (TMF8801.clearInterruptFlag plainBoard.sim TMF8801.blank (World.measured 7 0xC5 0x34 0x12))
    7 0xC5 0x34 0x12 (by decide) (by decide) (by decide) (by decide) (by decide)
    (by decide)).2.2 _ rfl
  exact ⟨by decide, h.2.2 (Or.inr (by decide)), h.1⟩

section StartSequence

variable {σ : Type}

open TMF8801_IO TMF8801

theorem NoChipIdRead.refl (w : World σ) : NoChipIdRead w w :=
  ⟨[], by simp, by simp⟩

theorem NoChipIdRead.trans {w1 w2 w3 : World σ} (h12 : NoChipIdRead w1 w2)
    (h23 : NoChipIdRead w2 w3) : NoChipIdRead w1 w3 := by
  obtain ⟨e1, ht1, hp1⟩ := h12
  obtain ⟨e2, ht2, hp2⟩ := h23
  refine ⟨e1 ++ e2, by rw [ht2, ht1, List.append_assoc], ?_⟩
  intro e he
  rw [List.mem_append] at he
  rcases he with he | he
  · exact hp1 e he
  · exact hp2 e he

theorem NoChipIdRead.of_pollTrace {reg p d : Nat} {w1 w2 : World σ} {evs : List Event}
    (hreg : reg ≠ REGISTER_ID) (ht : w2.trace = w1.trace ++ evs) (hp : PollTrace reg p d evs) :
    NoChipIdRead w1 w2 := by
  refine ⟨evs, ht, ?_⟩
  intro e he
  rcases hp.1 e he with h | h
  · cases e <;> simp_all [Event.isReadOf]
  · rw [h]; rfl

theorem loadAndStart_trace (sim : Sim σ) (self : TMF8801) (w : World σ)
    (hcal : self.calibrationData.length = 14) (hcmd : self.commandDataValues.length = 8) :
    (loadAndStart sim self w).trace = w.trace ++ startWrites self.tmf8801_io._address self := by
  have h1 : List.take 14 self.calibrationData = self.calibrationData :=
    List.take_of_length_le (by omega)
  have h2 : List.take 8 self.commandDataValues = self.commandDataValues :=
    List.take_of_length_le (by omega)
  simp [loadAndStart, updateCommandData8, writeSingleByte, writeMultipleBytes, startWrites,
    h1, h2]

theorem cpuReady_noChipIdRead (sim : Sim σ) (self : TMF8801) (w : World σ) :
    NoChipIdRead w (cpuReady sim self w).2 := by
  rcases exists_or_all_clear (fun k => (pollValue sim self.tmf8801_io
    REGISTER_ENABLE_REG k w).testBit 6 = true) 200 with ⟨m, hm, hset, hmin⟩ | hnone
  · rw [cpuReady_ready sim self w m hm (fun k hk => by simpa using hmin k hk) hset]
    obtain ⟨evs, ht, hp⟩ := afterPoll_trace sim self.tmf8801_io REGISTER_ENABLE_REG m w
    exact NoChipIdRead.of_pollTrace (by decide) ht hp
  · rw [cpuReady_timeout sim self w (fun k hk => by simpa using hnone k hk)]
    obtain ⟨evs, ht, hp⟩ := pollWorld_trace sim self.tmf8801_io REGISTER_ENABLE_REG 200 w
    exact NoChipIdRead.of_pollTrace (by decide) ht hp

theorem applicationReady_noChipIdRead (sim : Sim σ) (self : TMF8801) (w : World σ) :
    NoChipIdRead w (applicationReady sim self w).2 := by
  rcases exists_or_all_clear (fun k => pollValue sim self.tmf8801_io
    REGISTER_APPID k w = APPLICATION) 200 with ⟨m, hm, hset, hmin⟩ | hnone
  · rw [applicationReady_ready sim self w m hm (fun k hk => hmin k hk) hset]
    obtain ⟨evs, ht, hp⟩ := afterPoll_trace sim self.tmf8801_io REGISTER_APPID m w
    exact NoChipIdRead.of_pollTrace (by decide) ht hp
  · rw [applicationReady_timeout sim self w (fun k hk => hnone k hk)]
    obtain ⟨evs, ht, hp⟩ := pollWorld_trace sim self.tmf8801_io REGISTER_APPID 200 w
    exact NoChipIdRead.of_pollTrace (by decide) ht hp

theorem untilCpuReady_noChipIdRead (sim : Sim σ) (self : TMF8801) :
    ∀ (fuel : Nat) (w w2 : World σ), untilCpuReady sim self fuel w = some w2 →
      NoChipIdRead w w2 := by
  intro fuel
  induction fuel with
  | zero => intro w w2 h; simp [untilCpuReady] at h
  | succ fuel ih =>
    intro w w2 h
    unfold untilCpuReady at h
    split at h
    · simp only [Option.some.injEq] at h
      rw [← h]
      exact cpuReady_noChipIdRead sim self w
    · exact (cpuReady_noChipIdRead sim self w).trans (ih _ _ h)

theorem untilApplicationReady_noChipIdRead (sim : Sim σ) (self : TMF8801) :
    ∀ (fuel : Nat) (w w2 : World σ), untilApplicationReady sim self fuel w = some w2 →
      NoChipIdRead w w2 := by
  intro fuel
  induction fuel with
  | zero => intro w w2 h; simp [untilApplicationReady] at h
  | succ fuel ih =>
    intro w w2 h
    unfold untilApplicationReady at h
    split at h
    · simp only [Option.some.injEq] at h
      rw [← h]
      exact applicationReady_noChipIdRead sim self w
    · exact (applicationReady_noChipIdRead sim self w).trans (ih _ _ h)

end StartSequence

section StartSequenceEnd

variable {σ : Type}

open TMF8801_IO TMF8801

/-- The last call of a successful application poll is the read that gave
`APPLICATION`. -/
theorem afterPoll_last_read (sim : Sim σ) (io : TMF8801_IO) (m : Nat) (w : World σ)
    (hyes : pollValue sim io REGISTER_APPID m w = APPLICATION) :
    ∃ pre got b, (afterPoll sim io REGISTER_APPID m w).trace =
        pre ++ [Event.read io._address REGISTER_APPID 1 got] ∧
      got.head? = some b ∧ b % 256 = APPLICATION := by
  unfold pollValue readSingleByte at hyes
  dsimp only at hyes
  refine ⟨(pollWorld sim io REGISTER_APPID m w).trace,
    (sim.read io._address REGISTER_APPID 1 (pollWorld sim io REGISTER_APPID m w).dev).1, ?_⟩
  split at hyes
  · rename_i b hb
    exact ⟨b, rfl, hb, hyes⟩
  · simp at hyes

theorem applicationReady_last_read (sim : Sim σ) (self : TMF8801) (w : World σ)
    (htrue : (applicationReady sim self w).1 = true) :
    ∃ pre got b, (applicationReady sim self w).2.trace =
        pre ++ [Event.read self.tmf8801_io._address REGISTER_APPID 1 got] ∧
      got.head? = some b ∧ b % 256 = APPLICATION := by
  rcases exists_or_all_clear (fun k => pollValue sim self.tmf8801_io
    REGISTER_APPID k w = APPLICATION) 200 with ⟨m, hm, hset, hmin⟩ | hnone
  · rw [applicationReady_ready sim self w m hm (fun k hk => hmin k hk) hset]
    exact afterPoll_last_read sim self.tmf8801_io m w hset
  · rw [applicationReady_timeout sim self w (fun k hk => hnone k hk)] at htrue
    simp at htrue

theorem untilApplicationReady_last_read (sim : Sim σ) (self : TMF8801) :
    ∀ (fuel : Nat) (w w2 : World σ), untilApplicationReady sim self fuel w = some w2 →
      ∃ pre got b, w2.trace = pre ++ [Event.read self.tmf8801_io._address REGISTER_APPID 1 got] ∧
        got.head? = some b ∧ b % 256 = APPLICATION := by
  intro fuel
  induction fuel with
  | zero => intro w w2 h; simp [untilApplicationReady] at h
  | succ fuel ih =>
    intro w w2 h
    unfold untilApplicationReady at h
    split at h
    · rename_i htrue
      simp only [Option.some.injEq] at h
      rw [← h]
      exact applicationReady_last_read sim self w htrue
    · exact ih _ _ h

theorem setRegisterBit_noChipIdRead (sim : Sim σ) (io : TMF8801_IO) (b : Nat) (w : World σ) :
    NoChipIdRead w (setRegisterBit sim io REGISTER_ENABLE_REG b w) :=
  ⟨[Event.read io._address REGISTER_ENABLE_REG 1
      (sim.read io._address REGISTER_ENABLE_REG 1 w.dev).1,
    Event.write io._address REGISTER_ENABLE_REG
      [((readSingleByte sim io REGISTER_ENABLE_REG w).1 ||| (1 <<< b)) % 256]],
   by simp [setRegisterBit, writeSingleByte, readSingleByte],
   by simp [Event.isReadOf]⟩

theorem writeSingleByte_noChipIdRead (sim : Sim σ) (io : TMF8801_IO) (r v : Nat)
    (w : World σ) : NoChipIdRead w (writeSingleByte sim io r v w) :=
  ⟨[Event.write io._address r [v]], rfl, by simp [Event.isReadOf]⟩

theorem startWrites_noChipIdRead (a : Nat) (self : TMF8801) :
    ∀ e ∈ startWrites a self ++ [Event.delay 50], e.isReadOf REGISTER_ID = false := by
  intro e he
  simp only [startWrites, List.cons_append, List.nil_append, List.mem_cons, List.mem_singleton,
    List.not_mem_nil, or_false] at he
  rcases he with h | h | h | h | h | h <;> rw [h] <;> rfl

end StartSequenceEnd

/-- C10: here `self.calibrationData` has its 14 bytes and `self.commandDataValues` its
8. When `begin` returns true, its trace ends with the read of the application ID that
gave `0xC0`, then the five writes of `startWrites` in order, then `delay(10)`. When the
two poll loops of `resetDevice` have succeeded, `resetDevice` returns with the object
unchanged (so `lastError` is unchanged); its trace ends with the read of the
application ID that gave `0xC0`, then the same five writes in the same order, then
`delay(50)`; and none of its calls reads the chip-ID register. -/
theorem C10_start_sequence {σ : Type} (sim : Sim σ) (self : TMF8801) (address fuel : Nat)
    (w : World σ) (hcal : self.calibrationData.length = 14)
    (hcmd : self.commandDataValues.length = 8) :
    ((TMF8801.begin sim self address w).1 = true →
      ∃ pre got b, (TMF8801.begin sim self address w).2.2.trace =
          pre ++ [Event.read address REGISTER_APPID 1 got] ++ startWrites address self ++
            [Event.delay 10] ∧
        got.head? = some b ∧ b % 256 = APPLICATION) ∧
    (∀ w2 w4 : World σ,
      TMF8801.untilCpuReady sim self fuel
        ( TMF8801_IO.setRegisterBit sim self.tmf8801_io REGISTER_ENABLE_REG CPU_RESET w) =
          some w2 →
      TMF8801.untilApplicationReady sim self fuel
        ( TMF8801_IO.writeSingleByte sim self.tmf8801_io REGISTER_APPREQID APPLICATION w2) =
          some w4 →
      ∃ w5, TMF8801.resetDevice sim fuel self w = some (self, w5) ∧
        (∃ pre got b, w5.trace =
            pre ++ [Event.read self.tmf8801_io._address REGISTER_APPID 1 got] ++
              startWrites self.tmf8801_io._address self ++ [Event.delay 50] ∧
          got.head? = some b ∧ b % 256 = APPLICATION) ∧
        NoChipIdRead w w5) := by
  constructor
  · intro htrue
    obtain ⟨hprobe, m, hm, hclear, hset, hid, j, hj, hno, hyes⟩ :=
      begin_true_cases sim self address w htrue
    rw [begin_success sim self address w hprobe m hm hclear hset hid j hj hno hyes]
    obtain ⟨pre, got, b, ht, hb⟩ := afterPoll_last_read sim { _address := address } j
      (beginRequestWorld sim address m w) hyes
    refine ⟨pre, got, b, ?_, hb⟩
    have hl := loadAndStart_trace sim (beginSelf self address)
      (afterPoll sim { _address := address } REGISTER_APPID j
        (beginRequestWorld sim address m w)) hcal hcmd
    show (TMF8801.loadAndStart sim (beginSelf self address) _).trace ++ [Event.delay 10] = _
    rw [hl, ht]
    rfl
  · intro w2 w4 h2 h4
    refine ⟨delay sim 50 (TMF8801.loadAndStart sim self w4), ?_, ?_, ?_⟩
    · unfold TMF8801.resetDevice
      simp only [h2, h4]
    · obtain ⟨pre, got, b, ht, hb⟩ := untilApplicationReady_last_read sim self fuel _ _ h4
      refine ⟨pre, got, b, ?_, hb⟩
      show (TMF8801.loadAndStart sim self w4).trace ++ [Event.delay 50] = _
      rw [loadAndStart_trace sim self w4 hcal hcmd, ht]
    · have h01 := setRegisterBit_noChipIdRead sim self.tmf8801_io CPU_RESET w
      have h12 := untilCpuReady_noChipIdRead sim self fuel _ _ h2
      have h23 := writeSingleByte_noChipIdRead sim self.tmf8801_io REGISTER_APPREQID
        APPLICATION w2
      have h34 := untilApplicationReady_noChipIdRead sim self fuel _ _ h4
      have h45 : NoChipIdRead w4 (delay sim 50 (TMF8801.loadAndStart sim self w4)) := by
        refine ⟨startWrites self.tmf8801_io._address self ++ [Event.delay 50], ?_,
          startWrites_noChipIdRead _ _⟩
        show (TMF8801.loadAndStart sim self w4).trace ++ [Event.delay 50] = _
        rw [loadAndStart_trace sim self w4 hcal hcmd, List.append_assoc]
      exact (((h01.trans h12).trans h23).trans h34).trans h45

set_option maxRecDepth 100000 in
theorem C10_start_sequence_witness :
    (TMF8801.begin (bootBoard 0x07).sim TMF8801.sample 0x41 World.fresh).1 = true ∧
    (TMF8801.begin (bootBoard 0x07).sim TMF8801.sample 0x41 World.fresh).2.2.trace.drop 12 =
      [Event.read 0x41 0x00 1 [0xC0]] ++ startWrites 0x41 TMF8801.sample ++ [Event.delay 10] ∧
    (∃ pre got b,
      (TMF8801.begin (bootBoard 0x07).sim TMF8801.sample 0x41 World.fresh).2.2.trace =
        pre ++ [Event.read 0x41 REGISTER_APPID 1 got] ++ startWrites 0x41 TMF8801.sample ++
          [Event.delay 10] ∧
      got.head? = some b ∧ b % 256 = APPLICATION) ∧
    ∃ w5, TMF8801.resetDevice (bootBoard 0x07).sim 1 TMF8801.sample World.fresh =
        some (TMF8801.sample, w5) ∧
      (∃ pre got b, w5.trace =
          pre ++ [Event.read 0x41 REGISTER_APPID 1 got] ++ startWrites 0x41 TMF8801.sample ++
            [Event.delay 50] ∧
        got.head? = some b ∧ b % 256 = APPLICATION) ∧
      NoChipIdRead World.fresh w5 := by
  have h := C10_start_sequence (bootBoard 0x07).sim TMF8801.sample 0x41 1 World.fresh rfl rfl
  have hb : (TMF8801.begin (bootBoard 0x07).sim TMF8801.sample 0x41 World.fresh).1 = true := by
    decide
  refine ⟨hb, by decide, h.1 hb, ?_⟩
  exact h.2
    (afterPoll (bootBoard 0x07).sim ⟨0x41⟩ REGISTER_ENABLE_REG 2
      ( TMF8801_IO.setRegisterBit (bootBoard 0x07).sim ⟨0x41⟩ REGISTER_ENABLE_REG CPU_RESET
        World.fresh))
    (afterPoll (bootBoard 0x07).sim ⟨0x41⟩ REGISTER_APPID 1
      ( TMF8801_IO.writeSingleByte (bootBoard 0x07).sim ⟨0x41⟩ REGISTER_APPREQID APPLICATION
        (afterPoll (bootBoard 0x07).sim ⟨0x41⟩ REGISTER_ENABLE_REG 2
          ( TMF8801_IO.setRegisterBit (bootBoard 0x07).sim ⟨0x41⟩ REGISTER_ENABLE_REG CPU_RESET
            World.fresh))))
    (by rfl) (by rfl)

section RoundTrip

open TMF8801_IO TMF8801

theorem storeBytes_miss (bs : List Nat) :
    ∀ (regs : Nat → Nat) (r x : Nat), x < r ∨ r + bs.length ≤ x →
      storeBytes regs r bs x = regs x := by
  induction bs with
  | nil => intro regs r x _; rfl
  | cons b bs ih =>
    intro regs r x hx
    simp only [List.length_cons] at hx
    show storeBytes (fun y => if y = r then b else regs y) (r + 1) bs x = regs x
    rw [ih _ _ _ (by omega)]
    have hne : x ≠ r := by omega
    simp [hne]

theorem storeBytes_hit (bs : List Nat) :
    ∀ (regs : Nat → Nat) (r i : Nat), i < bs.length →
      storeBytes regs r bs (r + i) = bs.getD i 0 := by
  induction bs with
  | nil => intro regs r i hi; simp at hi
  | cons b bs ih =>
    intro regs r i hi
    show storeBytes (fun y => if y = r then b else regs y) (r + 1) bs (r + i) = _
    cases i with
    | zero =>
      rw [storeBytes_miss bs _ _ _ (by omega)]
      simp
    | succ i =>
      simp only [List.length_cons] at hi
      have h := ih (fun y => if y = r then b else regs y) (r + 1) i (by omega)
      rw [show r + (i + 1) = r + 1 + i by omega, h]
      simp

theorem board_readSingleByte (b : Board) (io : TMF8801_IO) (r : Nat) (w : World BoardState) :
    (readSingleByte b.sim io r w).1 = b.show w.dev r % 256 := by
  simp [readSingleByte, Board.sim, List.range_succ]

theorem board_readSingleByte_dev (b : Board) (io : TMF8801_IO) (r : Nat)
    (w : World BoardState) : (readSingleByte b.sim io r w).2.dev = w.dev := rfl

theorem board_write_regs (b : Board) (io : TMF8801_IO) (r v : Nat) (w : World BoardState) :
    (writeSingleByte b.sim io r v w).dev.regs = storeBytes w.dev.regs r [v] := rfl

theorem board_writeMultiple_regs (b : Board) (io : TMF8801_IO) (r n : Nat) (buf : List Nat)
    (w : World BoardState) :
    (writeMultipleBytes b.sim io r buf n w).dev.regs =
      storeBytes w.dev.regs r (buf.take n) := rfl

theorem board_delay_regs (b : Board) (ms : Nat) (w : World BoardState) :
    (delay b.sim ms w).dev.regs = w.dev.regs := rfl

theorem board_millis_dev (b : Board) (w : World BoardState) :
    (millis b.sim w).2.dev = w.dev := rfl

/-- Registers of the factory-calibration window after the five start writes. -/
theorem board_loadAndStart_window (b : Board) (self : TMF8801) (w : World BoardState)
    (i : Nat) (hi : i < 14) (hcal : self.calibrationData.length = 14) :
    (loadAndStart b.sim self w).dev.regs (0x20 + i) = self.calibrationData.getD i 0 := by
  have hlen : (List.take 8 self.commandDataValues).length ≤ 8 := by
    rw [List.length_take]; omega
  have h14 : List.take 14 self.calibrationData = self.calibrationData :=
    List.take_of_length_le (by omega)
  unfold loadAndStart updateCommandData8
  simp only [board_write_regs, board_writeMultiple_regs, REGISTER_COMMAND,
    REGISTER_FACTORY_CALIB_0, REGISTER_STATE_DATA_WR_0, REGISTER_CMD_DATA7, ALGO_STATE, h14]
  rw [storeBytes_miss _ _ _ _ (by simp; omega), storeBytes_miss _ _ _ _ (by omega),
    storeBytes_miss _ _ _ _ (by simp; omega), storeBytes_hit _ _ _ _ (by omega)]

/-- On a board that is always CPU ready and has the application loaded, `resetDevice`
returns after one round of each loop. -/
theorem board_resetDevice (b : Board) (hb : b.Calibratable) (self : TMF8801)
    (w : World BoardState) (fuel : Nat) :
    resetDevice b.sim (fuel + 1) self w =
      some (self, delay b.sim 50 (loadAndStart b.sim self
        (afterPoll b.sim self.tmf8801_io REGISTER_APPID 0
          (writeSingleByte b.sim self.tmf8801_io REGISTER_APPREQID APPLICATION
            (afterPoll b.sim self.tmf8801_io REGISTER_ENABLE_REG 0
              (setRegisterBit b.sim self.tmf8801_io REGISTER_ENABLE_REG CPU_RESET w)))))) := by
  have h1 : ∀ w1 : World BoardState, cpuReady b.sim self w1 =
      (true, afterPoll b.sim self.tmf8801_io REGISTER_ENABLE_REG 0 w1) := by
    intro w1
    apply cpuReady_ready b.sim self w1 0 (by omega) (by intro k hk; omega)
    show (readSingleByte b.sim self.tmf8801_io REGISTER_ENABLE_REG w1).1.testBit 6 = true
    rw [board_readSingleByte]
    exact hb.cpu _
  have h2 : ∀ w1 : World BoardState, applicationReady b.sim self w1 =
      (true, afterPoll b.sim self.tmf8801_io REGISTER_APPID 0 w1) := by
    intro w1
    apply applicationReady_ready b.sim self w1 0 (by omega) (by intro k hk; omega)
    show (readSingleByte b.sim self.tmf8801_io REGISTER_APPID w1).1 = APPLICATION
    rw [board_readSingleByte]
    exact hb.app _
  unfold resetDevice untilCpuReady untilApplicationReady
  simp only [h1, h2]
  rfl

/-- A 14-byte read of the factory-calibration window yields the stored registers. -/
theorem board_window_read (b : Board) (hb : b.Calibratable) (a : Nat) (s : BoardState) :
    (b.sim.read a 0x20 14 s).1 = (List.range 14).map (fun i => s.regs (0x20 + i)) := by
  show (List.range 14).map (fun i => b.show s (0x20 + i)) = _
  apply List.map_congr_left
  intro i hi
  rw [List.mem_range] at hi
  unfold Board.show
  rw [hb.stores s.now (0x20 + i) (by omega) (by omega)]

/-- Result of `readMultipleBytes` on the factory-calibration window into a caller
buffer. -/
theorem board_readWindow (b : Board) (hb : b.Calibratable) (io : TMF8801_IO)
    (buf : List Nat) (w : World BoardState) :
    (readMultipleBytes b.sim io REGISTER_FACTORY_CALIB_0 buf CALIBRATION_DATA_LENGTH w).1 =
      (List.range 14).map (fun i => w.dev.regs (0x20 + i) % 256) ++ buf.drop 14 := by
  unfold readMultipleBytes
  simp only [CALIBRATION_DATA_LENGTH, REGISTER_FACTORY_CALIB_0]
  rw [board_window_read b hb]
  have hlen : ∀ f : Nat → Nat, (List.take 14 (List.map f (List.range 14))) =
      List.map f (List.range 14) := by
    intro f
    apply List.take_of_length_le
    simp
  rw [hlen, List.map_map]
  simp only [List.length_map, List.length_range]
  rfl

end RoundTrip

section RoundTripEnd

theorem list_eq_map_getD (p : List Nat) (n : Nat) (hp : p.length = n)
    (hbytes : ∀ x ∈ p, x < 256) :
    (List.range n).map (fun i => p.getD i 0 % 256) = p := by
  apply List.ext_getElem
  · simp [hp]
  · intro i h1 h2
    have hlt : p[i] < 256 := hbytes _ (List.getElem_mem h2)
    simp [List.getD_eq_getElem?_getD, List.getElem?_eq_getElem h2, Nat.mod_eq_of_lt hlt]

end RoundTripEnd

section ReadBackTrace

open TMF8801_IO TMF8801

/-- The trace the five start writes add, whatever the lengths of the two buffers. -/
theorem loadAndStart_trace_take {σ : Type} (sim : Sim σ) (self : TMF8801) (w : World σ) :
    (loadAndStart sim self w).trace = w.trace ++
      [Event.write self.tmf8801_io._address 0x10 [0x0B],
       Event.write self.tmf8801_io._address 0x20 (self.calibrationData.take 14),
       Event.write self.tmf8801_io._address 0x2E [0xB1, 0xA9, 0x02, 0, 0, 0, 0, 0, 0, 0, 0],
       Event.write self.tmf8801_io._address 0x08 (self.commandDataValues.take 8),
       Event.write self.tmf8801_io._address 0x10 [0x02]] := by
  simp [loadAndStart, updateCommandData8, writeSingleByte, writeMultipleBytes]

theorem list_eq_map_getD_raw (p : List Nat) (n : Nat) (hp : p.length = n) :
    (List.range n).map (fun i => p.getD i 0) = p := by
  apply List.ext_getElem
  · simp [hp]
  · intro i h1 h2
    simp [List.getD_eq_getElem?_getD, List.getElem?_eq_getElem h2]

/-- On a board whose calibration content is ready, `getCalibrationData` succeeds in
its first pass: it hands out the 14 registers from `0x20` on, and the last call it
makes is the 14-byte read at `0x20` that yielded them. -/
theorem board_getCalibrationData_read (b : Board) (hb : b.Calibratable) (self : TMF8801)
    (buf : List Nat) (w : World BoardState) (fuel : Nat) :
    ∃ w2, getCalibrationData b.sim (fuel + 1) self buf w =
        some (true, { self with lastError := ERROR_NONE },
          ((List.range 14).map (fun i => w.dev.regs (0x20 + i) % 256)) ++ buf.drop 14, w2) ∧
      ∃ mid, w2.trace = w.trace ++ mid ++
        [Event.read self.tmf8801_io._address REGISTER_FACTORY_CALIB_0 14
          ((List.range 14).map (fun i => w.dev.regs (0x20 + i)))] := by
  have hc : ∀ w1 : World BoardState,
      (readSingleByte b.sim self.tmf8801_io REGISTER_REGISTER_CONTENTS w1).1 =
        CONTENT_CALIBRATION := by
    intro w1
    rw [board_readSingleByte]
    exact hb.content _
  have hregs : ∀ i, i ∈ List.range 14 →
      (delay b.sim 10 (readSingleByte b.sim self.tmf8801_io REGISTER_REGISTER_CONTENTS
        (delay b.sim 10 (writeSingleByte b.sim self.tmf8801_io REGISTER_COMMAND
          COMMAND_FACTORY_CALIBRATION (millis b.sim (delay b.sim 50
            (writeSingleByte b.sim self.tmf8801_io REGISTER_COMMAND 0xff w))).2))).2).dev.regs
              (0x20 + i) = w.dev.regs (0x20 + i) := by
    intro i hi
    rw [List.mem_range] at hi
    simp only [board_delay_regs, board_readSingleByte_dev, board_write_regs,
      board_millis_dev, REGISTER_COMMAND]
    rw [storeBytes_miss _ _ _ _ (by simp; omega), storeBytes_miss _ _ _ _ (by simp; omega)]
  have hregs256 : ∀ i, i ∈ List.range 14 →
      (delay b.sim 10 (readSingleByte b.sim self.tmf8801_io REGISTER_REGISTER_CONTENTS
        (delay b.sim 10 (writeSingleByte b.sim self.tmf8801_io REGISTER_COMMAND
          COMMAND_FACTORY_CALIBRATION (millis b.sim (delay b.sim 50
            (writeSingleByte b.sim self.tmf8801_io REGISTER_COMMAND 0xff w))).2))).2).dev.regs
              (0x20 + i) % 256 = w.dev.regs (0x20 + i) % 256 := by
    intro i hi
    rw [hregs i hi]
  refine ⟨(readMultipleBytes b.sim self.tmf8801_io REGISTER_FACTORY_CALIB_0 buf
    CALIBRATION_DATA_LENGTH
    (delay b.sim 10 (readSingleByte b.sim self.tmf8801_io REGISTER_REGISTER_CONTENTS
      (delay b.sim 10 (writeSingleByte b.sim self.tmf8801_io REGISTER_COMMAND
        COMMAND_FACTORY_CALIBRATION (millis b.sim (delay b.sim 50
          (writeSingleByte b.sim self.tmf8801_io REGISTER_COMMAND 0xff w))).2))).2)).2, ?_, ?_⟩
  · unfold getCalibrationData getCalibrationLoop
    simp only [hc, if_true]
    rw [board_readWindow b hb, List.map_congr_left hregs256]
  · refine ⟨[Event.write self.tmf8801_io._address REGISTER_COMMAND [0xff], Event.delay 50,
      Event.millis ((b.sim.millis (delay b.sim 50
        (writeSingleByte b.sim self.tmf8801_io REGISTER_COMMAND 0xff w)).dev).1 % 2 ^ 32),
      Event.write self.tmf8801_io._address REGISTER_COMMAND [COMMAND_FACTORY_CALIBRATION],
      Event.delay 10,
      Event.read self.tmf8801_io._address REGISTER_REGISTER_CONTENTS 1
        (b.sim.read self.tmf8801_io._address REGISTER_REGISTER_CONTENTS 1
          (delay b.sim 10 (writeSingleByte b.sim self.tmf8801_io REGISTER_COMMAND
            COMMAND_FACTORY_CALIBRATION (millis b.sim (delay b.sim 50
              (writeSingleByte b.sim self.tmf8801_io REGISTER_COMMAND 0xff w))).2)).dev).1,
      Event.delay 10], ?_⟩
    rw [← List.map_congr_left hregs, ← board_window_read b hb self.tmf8801_io._address]
    simp [readMultipleBytes, readSingleByte, writeSingleByte, delay, millis]

end ReadBackTrace

section ReadBackWindow

open TMF8801_IO TMF8801

/-- Read-back from a world whose factory-calibration window holds the bytes `p`. -/
theorem board_readback_of_window (b : Board) (hb : b.Calibratable) (other : TMF8801)
    (p buf : List Nat) (w : World BoardState) (fuel : Nat) (hp : p.length = 14)
    (hbytes : ∀ x ∈ p, x < 256) (hbuf : buf.length = 14)
    (hwin : ∀ i, i < 14 → w.dev.regs (0x20 + i) = p.getD i 0) :
    ∃ w2, getCalibrationData b.sim (fuel + 1) other buf w =
        some (true, { other with lastError := ERROR_NONE }, p, w2) ∧
      ∃ mid, w2.trace = w.trace ++ mid ++
        [Event.read other.tmf8801_io._address REGISTER_FACTORY_CALIB_0 14 p] := by
  obtain ⟨w2, h2, mid, hmid⟩ := board_getCalibrationData_read b hb other buf w fuel
  have h256 : (List.range 14).map (fun i => w.dev.regs (0x20 + i) % 256) = p := by
    rw [← list_eq_map_getD p 14 hp hbytes]
    apply List.map_congr_left
    intro i hi
    rw [List.mem_range] at hi
    rw [hwin i hi]
  have hraw : (List.range 14).map (fun i => w.dev.regs (0x20 + i)) = p := by
    conv_rhs => rw [← list_eq_map_getD_raw p 14 hp]
    apply List.map_congr_left
    intro i hi
    rw [List.mem_range] at hi
    rw [hwin i hi]
  refine ⟨w2, ?_, mid, ?_⟩
  · rw [h2, h256, List.drop_of_length_le (by omega)]
    simp
  · rw [hmid, hraw]

end ReadBackWindow

/-- C6: on a board that stores the factory-calibration window and reports CPU ready,
application loaded and calibration content ready, for every payload `p` of 14 bytes
`setCalibrationData p` returns with `p` as the object's calibration data; its trace
ends with the five start writes (`p` itself to `0x20`, then the blob to `0x2E`, the
command data to `0x08` and `0x02` to `0x10`) and `delay(50)`, and afterwards the
registers `0x20..0x2D` of the device hold `p`. A following `getCalibrationData` into a
14-byte buffer, on an object whose own members hold anything, returns true with
`lastError = ERROR_NONE` and the buffer equal to `p`, and the last call it makes is
the 14-byte read at `0x20` that yielded `p`. -/
theorem C6_calibration_round_trip (b : Board) (hb : b.Calibratable) (self other : TMF8801)
    (p buf : List Nat) (w : World BoardState) (fuel : Nat) (hfuel : 0 < fuel)
    (hself : self.calibrationData.length = 14) (hp : p.length = 14)
    (hbytes : ∀ x ∈ p, x < 256) (hbuf : buf.length = 14) :
    ∃ w1, TMF8801.setCalibrationData b.sim fuel self p w =
        some ({ self with calibrationData := p }, w1) ∧
      (∃ pre, w1.trace = pre ++
        [Event.write self.tmf8801_io._address 0x10 [0x0B],
         Event.write self.tmf8801_io._address 0x20 p,
         Event.write self.tmf8801_io._address 0x2E [0xB1, 0xA9, 0x02, 0, 0, 0, 0, 0, 0, 0, 0],
         Event.write self.tmf8801_io._address 0x08 (self.commandDataValues.take 8),
         Event.write self.tmf8801_io._address 0x10 [0x02],
         Event.delay 50]) ∧
      (∀ i, i < 14 → w1.dev.regs (0x20 + i) = p.getD i 0) ∧
      ∃ w2, TMF8801.getCalibrationData b.sim fuel other buf w1 =
          some (true, { other with lastError := ERROR_NONE }, p, w2) ∧
        ∃ mid, w2.trace = w1.trace ++ mid ++
          [Event.read other.tmf8801_io._address 0x20 14 p] := by
  obtain ⟨f, rfl⟩ : ∃ f, fuel = f + 1 := ⟨fuel - 1, by omega⟩
  have hcal : List.take CALIBRATION_DATA_LENGTH p ++
      List.drop CALIBRATION_DATA_LENGTH self.calibrationData = p := by
    rw [List.take_of_length_le (by simp [hp]), List.drop_of_length_le (by simp [hself])]
    simp
  have hwin : ∀ (w0 : World BoardState) (i : Nat), i < 14 →
      (delay b.sim 50 (TMF8801.loadAndStart b.sim { self with calibrationData := p }
        w0)).dev.regs (0x20 + i) = p.getD i 0 := by
    intro w0 i hi
    rw [board_delay_regs, board_loadAndStart_window b _ _ i hi hp]
  have htrace : ∀ w0 : World BoardState,
      (delay b.sim 50 (TMF8801.loadAndStart b.sim { self with calibrationData := p }
        w0)).trace = w0.trace ++
        [Event.write self.tmf8801_io._address 0x10 [0x0B],
         Event.write self.tmf8801_io._address 0x20 p,
         Event.write self.tmf8801_io._address 0x2E [0xB1, 0xA9, 0x02, 0, 0, 0, 0, 0, 0, 0, 0],
         Event.write self.tmf8801_io._address 0x08 (self.commandDataValues.take 8),
         Event.write self.tmf8801_io._address 0x10 [0x02],
         Event.delay 50] := by
    intro w0
    show (TMF8801.loadAndStart b.sim { self with calibrationData := p } w0).trace ++
      [Event.delay 50] = _
    rw [loadAndStart_trace_take]
    have hp14 : List.take 14 p = p := List.take_of_length_le (by omega)
    simp [hp14]
  unfold TMF8801.setCalibrationData
  rw [hcal, board_resetDevice b hb]
  exact ⟨_, rfl, ⟨_, htrace _⟩, hwin _,
    board_readback_of_window b hb other p buf _ f hp hbytes hbuf (hwin _)⟩

theorem C6_calibration_round_trip_witness :
    readyBoard.Calibratable ∧
    ∃ w1, TMF8801.setCalibrationData readyBoard.sim 1 TMF8801.sample
        [0xC1, 0x22, 0x00, 0x1C, 0x09, 0x40, 0x8C, 0x98, 0x0A, 0x15, 0xCE, 0x9E, 0x01, 0xFC]
        World.fresh =
        some ({ TMF8801.sample with calibrationData :=
          [0xC1, 0x22, 0x00, 0x1C, 0x09, 0x40, 0x8C, 0x98, 0x0A, 0x15, 0xCE, 0x9E, 0x01, 0xFC] },
          w1) ∧
      w1.dev.regs 0x20 = 0xC1 ∧ w1.dev.regs 0x2D = 0xFC ∧
      (TMF8801.getCalibrationData readyBoard.sim 1 TMF8801.blank (List.replicate 14 0) w1).map
        (fun r => (r.1, r.2.2.1)) =
        some (true,
          [0xC1, 0x22, 0x00, 0x1C, 0x09, 0x40, 0x8C, 0x98, 0x0A, 0x15, 0xCE, 0x9E, 0x01, 0xFC]) := by
  have hb : readyBoard.Calibratable :=
    ⟨fun _ => by show Nat.testBit (0x41 % 256) 6 = true; decide, fun _ => rfl, fun _ => rfl,
      fun t r h1 h2 => by
        simp only [readyBoard]
        rw [if_neg (by omega), if_neg (by omega), if_neg (by omega)]⟩
  obtain ⟨w1, h1, _, hregs, w2, h2, _⟩ := C6_calibration_round_trip readyBoard hb
    TMF8801.sample TMF8801.blank
    [0xC1, 0x22, 0x00, 0x1C, 0x09, 0x40, 0x8C, 0x98, 0x0A, 0x15, 0xCE, 0x9E, 0x01, 0xFC]
    (List.replicate 14 0) World.fresh 1 (by decide) (by decide) (by decide) (by decide)
    (by decide)
  refine ⟨hb, w1, h1, hregs 0 (by decide), hregs 13 (by decide), ?_⟩
  rw [h2]
  rfl

section GpioBuffer

variable {σ : Type}

open TMF8801_IO TMF8801

/-- Registers of the command-data window after the five start writes. -/
theorem board_loadAndStart_cmd (b : Board) (self : TMF8801) (w : World BoardState)
    (i : Nat) (hi : i < 8) (hlen : self.commandDataValues.length = 8) :
    (loadAndStart b.sim self w).dev.regs (0x08 + i) = self.commandDataValues.getD i 0 := by
  have h8 : List.take 8 self.commandDataValues = self.commandDataValues :=
    List.take_of_length_le (by omega)
  unfold loadAndStart updateCommandData8
  simp only [board_write_regs, board_writeMultiple_regs, REGISTER_COMMAND,
    REGISTER_CMD_DATA7, h8]
  rw [storeBytes_miss _ _ _ _ (by simp; omega), storeBytes_hit _ _ _ _ (by omega)]

/-- A valid mode passes the guard of either setter; the result of `setGPIO0Mode`. -/
theorem setGPIO0Mode_valid (sim : Sim σ) (self : TMF8801) (m : Nat) (w : World σ)
    (hm : m ≤ 5) :
    setGPIO0Mode sim self m w =
      ({ self with commandDataValues := (self.commandDataValues.set CMD_DATA_5
          ((((readSingleByte sim self.tmf8801_io REGISTER_CMD_DATA0 w).1 &&& 0xf0) + m) % 256)) },
        writeMultipleBytes sim self.tmf8801_io REGISTER_CMD_DATA0
          [(((readSingleByte sim self.tmf8801_io REGISTER_CMD_DATA0 w).1 &&& 0xf0) + m) % 256,
            0x0f] 2 (readSingleByte sim self.tmf8801_io REGISTER_CMD_DATA0 w).2) := by
  unfold setGPIO0Mode
  rw [if_neg (by unfold MODE_HIGH_OUTPUT; omega)]

/-- The result of `setGPIO1Mode` for a valid mode. -/
theorem setGPIO1Mode_valid (sim : Sim σ) (self : TMF8801) (m : Nat) (w : World σ)
    (hm : m ≤ 5) :
    setGPIO1Mode sim self m w =
      ({ self with commandDataValues := (self.commandDataValues.set CMD_DATA_5
          ((((readSingleByte sim self.tmf8801_io REGISTER_CMD_DATA0 w).1 &&& 0x0f) +
            (m <<< 4)) % 256)) },
        writeMultipleBytes sim self.tmf8801_io REGISTER_CMD_DATA0
          [(((readSingleByte sim self.tmf8801_io REGISTER_CMD_DATA0 w).1 &&& 0x0f) +
            (m <<< 4)) % 256, 0x0f] 2
          (readSingleByte sim self.tmf8801_io REGISTER_CMD_DATA0 w).2) := by
  unfold setGPIO1Mode
  rw [if_neg (by unfold MODE_HIGH_OUTPUT; omega)]

/-- Entries of an 8-byte buffer after entry `CMD_DATA_5` was replaced. -/
theorem buffer_after_set (buf : List Nat) (v : Nat) (hlen : buf.length = 8) :
    (buf.set CMD_DATA_5 v).length = 8 ∧ (buf.set CMD_DATA_5 v).getD CMD_DATA_5 0 = v ∧
    ∀ i, i ≠ CMD_DATA_5 → (buf.set CMD_DATA_5 v).getD i 0 = buf.getD i 0 := by
  refine ⟨by simp [hlen], ?_, ?_⟩
  · simp [List.getD_eq_getElem?_getD, List.getElem?_set, hlen]
  · intro i hi
    have hne : ¬ (2 = i) := fun h => hi h.symm
    simp only [CMD_DATA_5] at hi
    simp [List.getD_eq_getElem?_getD, List.getElem?_set, hne]

/-- What a GPIO setter that stored `v` leaves on a register-file board: `v` in register
`0x0F`; and after the start writes that follow, `v` in register `0x0A` and the old
buffer entry `CMD_DATA_0` in register `0x0F`. -/
theorem board_after_setter (b : Board) (self : TMF8801) (v : Nat) (w : World BoardState)
    (hlen : self.commandDataValues.length = 8) :
    (writeMultipleBytes b.sim self.tmf8801_io REGISTER_CMD_DATA0 [v, 0x0f] 2 w).dev.regs
        REGISTER_CMD_DATA0 = v ∧
    (loadAndStart b.sim
        { self with commandDataValues := self.commandDataValues.set CMD_DATA_5 v }
        (writeMultipleBytes b.sim self.tmf8801_io REGISTER_CMD_DATA0 [v, 0x0f] 2 w)).dev.regs
        REGISTER_CMD_DATA5 = v ∧
    (loadAndStart b.sim
        { self with commandDataValues := self.commandDataValues.set CMD_DATA_5 v }
        (writeMultipleBytes b.sim self.tmf8801_io REGISTER_CMD_DATA0 [v, 0x0f] 2 w)).dev.regs
        REGISTER_CMD_DATA0 = self.commandDataValues.getD CMD_DATA_0 0 := by
  obtain ⟨h8, h2, hother⟩ := buffer_after_set self.commandDataValues v hlen
  refine ⟨?_, ?_, ?_⟩
  · rw [board_writeMultiple_regs]
    exact storeBytes_hit [v, 0x0f] _ REGISTER_CMD_DATA0 0 (by simp)
  · have h := board_loadAndStart_cmd b
      { self with commandDataValues := self.commandDataValues.set CMD_DATA_5 v }
      (writeMultipleBytes b.sim self.tmf8801_io REGISTER_CMD_DATA0 [v, 0x0f] 2 w) 2
      (by omega) h8
    exact h.trans h2
  · have h := board_loadAndStart_cmd b
      { self with commandDataValues := self.commandDataValues.set CMD_DATA_5 v }
      (writeMultipleBytes b.sim self.tmf8801_io REGISTER_CMD_DATA0 [v, 0x0f] 2 w) 7
      (by omega) h8
    exact h.trans (hother 7 (by decide))

end GpioBuffer

set_option maxRecDepth 100000 in
/-- Counterexample to C11 as stated: with the buffer `TMF8801.sample` holds and
register `0x0F` reading `0x35`, `setGPIO0Mode(4)` writes `0x34` to register `0x0F`, but
the buffer entry that `updateCommandData8` sends to `0x0F` (index 7) still holds
`0xFF`; the byte `0x34` sits in entry `CMD_DATA_5` (index 2). After the buffer is
written out, register `0x0F` reads `0xFF` and `getGPIO0Mode` returns `0x0F`, not 4. -/
theorem C11_counterexample :
    (TMF8801.setGPIO0Mode plainBoard.sim TMF8801.sample 4 World.gpioPreset).2.trace =
      [Event.read 0x41 0x0F 1 [0x35], Event.write 0x41 0x0F [0x34, 0x0f]] ∧
    (TMF8801.setGPIO0Mode plainBoard.sim TMF8801.sample 4 World.gpioPreset).1.commandDataValues =
      [0x03, 0x23, 0x34, 0x00, 0x00, 0x64, 0xFF, 0xFF] ∧
    (TMF8801.setGPIO0Mode plainBoard.sim TMF8801.sample 4
      World.gpioPreset).1.commandDataValues.getD CMD_DATA_0 0 ≠ 0x34 ∧
    (TMF8801.updateCommandData8 plainBoard.sim
      (TMF8801.setGPIO0Mode plainBoard.sim TMF8801.sample 4 World.gpioPreset).1
      (TMF8801.setGPIO0Mode plainBoard.sim TMF8801.sample 4 World.gpioPreset).2).dev.regs
        REGISTER_CMD_DATA0 = 0xFF ∧
    (TMF8801.getGPIO0Mode plainBoard.sim TMF8801.sample
      (TMF8801.updateCommandData8 plainBoard.sim
        (TMF8801.setGPIO0Mode plainBoard.sim TMF8801.sample 4 World.gpioPreset).1
        (TMF8801.setGPIO0Mode plainBoard.sim TMF8801.sample 4 World.gpioPreset).2)).1 = 0x0F := by
  refine ⟨?_, ?_, ?_, ?_, ?_⟩ <;> decide

/-- C11 (amended): for a valid mode `m` in 0..5 and an 8-byte command-data buffer, the
byte `v` that `setGPIO0Mode` or `setGPIO1Mode` writes to register `CMD_DATA0` (`0x0F`,
followed by `0x0f`) is afterwards held in buffer entry `CMD_DATA_5` (index 2); every
other entry, entry `CMD_DATA_0` (index 7) included, is as before; and
`updateCommandData8` sends the whole buffer in one write that starts at `0x08`. On a
register-file board, the start writes of a following bring-up or reset therefore leave
`v` in register `CMD_DATA5` (`0x0A`) and the old entry 7 in register `0x0F`. -/
theorem C11_gpio_buffer_entry {σ : Type} (sim : Sim σ) (b : Board) (self : TMF8801)
    (m : Nat) (w : World σ) (wb : World BoardState) (hm : m ≤ 5)
    (hlen : self.commandDataValues.length = 8) :
    (∃ v, (TMF8801.setGPIO0Mode sim self m w).2.trace =
        ( TMF8801_IO.readSingleByte sim self.tmf8801_io REGISTER_CMD_DATA0 w).2.trace ++
          [Event.write self.tmf8801_io._address REGISTER_CMD_DATA0 [v, 0x0f]] ∧
      (TMF8801.setGPIO0Mode sim self m w).1.commandDataValues.getD CMD_DATA_5 0 = v ∧
      (∀ i, i ≠ CMD_DATA_5 →
        (TMF8801.setGPIO0Mode sim self m w).1.commandDataValues.getD i 0 =
          self.commandDataValues.getD i 0) ∧
      (TMF8801.updateCommandData8 sim (TMF8801.setGPIO0Mode sim self m w).1
        (TMF8801.setGPIO0Mode sim self m w).2).trace =
        (TMF8801.setGPIO0Mode sim self m w).2.trace ++
          [Event.write self.tmf8801_io._address REGISTER_CMD_DATA7
            (TMF8801.setGPIO0Mode sim self m w).1.commandDataValues]) ∧
    (∃ v, (TMF8801.setGPIO1Mode sim self m w).2.trace =
        ( TMF8801_IO.readSingleByte sim self.tmf8801_io REGISTER_CMD_DATA0 w).2.trace ++
          [Event.write self.tmf8801_io._address REGISTER_CMD_DATA0 [v, 0x0f]] ∧
      (TMF8801.setGPIO1Mode sim self m w).1.commandDataValues.getD CMD_DATA_5 0 = v ∧
      (∀ i, i ≠ CMD_DATA_5 →
        (TMF8801.setGPIO1Mode sim self m w).1.commandDataValues.getD i 0 =
          self.commandDataValues.getD i 0) ∧
      (TMF8801.updateCommandData8 sim (TMF8801.setGPIO1Mode sim self m w).1
        (TMF8801.setGPIO1Mode sim self m w).2).trace =
        (TMF8801.setGPIO1Mode sim self m w).2.trace ++
          [Event.write self.tmf8801_io._address REGISTER_CMD_DATA7
            (TMF8801.setGPIO1Mode sim self m w).1.commandDataValues]) ∧
    ((TMF8801.setGPIO0Mode b.sim self m wb).2.dev.regs REGISTER_CMD_DATA0 =
        (TMF8801.setGPIO0Mode b.sim self m wb).1.commandDataValues.getD CMD_DATA_5 0 ∧
      (TMF8801.loadAndStart b.sim (TMF8801.setGPIO0Mode b.sim self m wb).1
        (TMF8801.setGPIO0Mode b.sim self m wb).2).dev.regs REGISTER_CMD_DATA5 =
        (TMF8801.setGPIO0Mode b.sim self m wb).1.commandDataValues.getD CMD_DATA_5 0 ∧
      (TMF8801.loadAndStart b.sim (TMF8801.setGPIO0Mode b.sim self m wb).1
        (TMF8801.setGPIO0Mode b.sim self m wb).2).dev.regs REGISTER_CMD_DATA0 =
        self.commandDataValues.getD CMD_DATA_0 0) ∧
    ((TMF8801.setGPIO1Mode b.sim self m wb).2.dev.regs REGISTER_CMD_DATA0 =
        (TMF8801.setGPIO1Mode b.sim self m wb).1.commandDataValues.getD CMD_DATA_5 0 ∧
      (TMF8801.loadAndStart b.sim (TMF8801.setGPIO1Mode b.sim self m wb).1
        (TMF8801.setGPIO1Mode b.sim self m wb).2).dev.regs REGISTER_CMD_DATA5 =
        (TMF8801.setGPIO1Mode b.sim self m wb).1.commandDataValues.getD CMD_DATA_5 0 ∧
      (TMF8801.loadAndStart b.sim (TMF8801.setGPIO1Mode b.sim self m wb).1
        (TMF8801.setGPIO1Mode b.sim self m wb).2).dev.regs REGISTER_CMD_DATA0 =
        self.commandDataValues.getD CMD_DATA_0 0) := by
  refine ⟨?_, ?_, ?_, ?_⟩
  · rw [setGPIO0Mode_valid sim self m w hm]
    obtain ⟨h8, h2, hother⟩ := buffer_after_set self.commandDataValues
      (((( TMF8801_IO.readSingleByte sim self.tmf8801_io REGISTER_CMD_DATA0 w).1 &&& 0xf0) + m)
        % 256) hlen
    refine ⟨_, rfl, h2, hother, ?_⟩
    show _ ++ [Event.write _ _ (List.take 8 _)] = _
    rw [List.take_of_length_le (by rw [h8])]
  · rw [setGPIO1Mode_valid sim self m w hm]
    obtain ⟨h8, h2, hother⟩ := buffer_after_set self.commandDataValues
      (((( TMF8801_IO.readSingleByte sim self.tmf8801_io REGISTER_CMD_DATA0 w).1 &&& 0x0f) +
        (m <<< 4)) % 256) hlen
    refine ⟨_, rfl, h2, hother, ?_⟩
    show _ ++ [Event.write _ _ (List.take 8 _)] = _
    rw [List.take_of_length_le (by rw [h8])]
  · rw [setGPIO0Mode_valid b.sim self m wb hm]
    obtain ⟨_, h2, _⟩ := buffer_after_set self.commandDataValues
      (((( TMF8801_IO.readSingleByte b.sim self.tmf8801_io REGISTER_CMD_DATA0 wb).1 &&& 0xf0) + m)
        % 256) hlen
    obtain ⟨ha, hb, hc⟩ := board_after_setter b self
      (((( TMF8801_IO.readSingleByte b.sim self.tmf8801_io REGISTER_CMD_DATA0 wb).1 &&& 0xf0) + m)
        % 256) ( TMF8801_IO.readSingleByte b.sim self.tmf8801_io REGISTER_CMD_DATA0 wb).2 hlen
    exact ⟨ha.trans h2.symm, hb.trans h2.symm, hc⟩
  · rw [setGPIO1Mode_valid b.sim self m wb hm]
    obtain ⟨_, h2, _⟩ := buffer_after_set self.commandDataValues
      (((( TMF8801_IO.readSingleByte b.sim self.tmf8801_io REGISTER_CMD_DATA0 wb).1 &&& 0x0f) +
        (m <<< 4)) % 256) hlen
    obtain ⟨ha, hb, hc⟩ := board_after_setter b self
      (((( TMF8801_IO.readSingleByte b.sim self.tmf8801_io REGISTER_CMD_DATA0 wb).1 &&& 0x0f) +
        (m <<< 4)) % 256)
      ( TMF8801_IO.readSingleByte b.sim self.tmf8801_io REGISTER_CMD_DATA0 wb).2 hlen
    exact ⟨ha.trans h2.symm, hb.trans h2.symm, hc⟩

theorem C11_gpio_buffer_entry_witness :
    (4 : Nat) ≤ 5 ∧ TMF8801.sample.commandDataValues.length = 8 ∧
    (TMF8801.setGPIO0Mode plainBoard.sim TMF8801.sample 4 World.gpioPreset).2.dev.regs
      REGISTER_CMD_DATA0 = 0x34 ∧
    (TMF8801.setGPIO0Mode plainBoard.sim TMF8801.sample 4
      World.gpioPreset).1.commandDataValues.getD CMD_DATA_5 0 = 0x34 ∧
    (TMF8801.loadAndStart plainBoard.sim
      (TMF8801.setGPIO0Mode plainBoard.sim TMF8801.sample 4 World.gpioPreset).1
      (TMF8801.setGPIO0Mode plainBoard.sim TMF8801.sample 4 World.gpioPreset).2).dev.regs
        REGISTER_CMD_DATA5 = 0x34 ∧
    (TMF8801.loadAndStart plainBoard.sim
      (TMF8801.setGPIO0Mode plainBoard.sim TMF8801.sample 4 World.gpioPreset).1
      (TMF8801.setGPIO0Mode plainBoard.sim TMF8801.sample 4 World.gpioPreset).2).dev.regs
        REGISTER_CMD_DATA0 = 0xFF := by
  have h := (C11_gpio_buffer_entry plainBoard.sim plainBoard TMF8801.sample 4 World.gpioPreset
    World.gpioPreset (by decide) rfl).2.2.1
  have hv : (TMF8801.setGPIO0Mode plainBoard.sim TMF8801.sample 4
      World.gpioPreset).1.commandDataValues.getD CMD_DATA_5 0 = 0x34 := by decide
  exact ⟨by decide, rfl, h.1.trans hv, hv, h.2.1.trans hv, h.2.2⟩
